import Mathlib

/-!
# A verification development for `src/init.js`

`init.js` is a project scaffolding script.  It is one linear procedure that
talks to the outside world (console, prompts, file system, child processes)
and does a little string and object manipulation in between.

The embedding below keeps the control flow of the script, statement by
statement, as `script : World → Script Unit`, and `run w` is its outcome from
the initial state.  The `World` holds everything the script cannot decide by
itself: the command line, what the operator answers, which external calls
fail, what the copy leaves on disk and what the two JSON files contain.  An
`Outcome` is the observable behaviour: the side effects in the order the
calls are made, the state left behind and the way the statement ended.

What is modelled of the environment:

* every call with a side effect is recorded when it is made, also when it
  then fails; reads (`existsSync`, `require`) are not recorded;
* `template.json` is a JSON object whose optional `package` member holds
  optional `scripts`, `dependencies` and `devDependencies` objects with string
  values, each given by the members of its JSON text;
* the entries of the target directory are files and directories, and
  `renameSync` is the `rename` of POSIX, which the system may also refuse;
* an install command may change the manifest on disk in any way, a remove
  command takes the package out of `dependencies`;
* colours (`chalk`) are left out and paths are the text of their segments.
-/

set_option autoImplicit false

namespace InitJs

/-! ## JavaScript strings -/

/-- The code points removed by `String.prototype.trim`: the ECMAScript
`WhiteSpace` and `LineTerminator` productions. -/
def isJsWhiteSpace (c : Char) : Bool :=
  c.toNat == 0x09 || c.toNat == 0x0A || c.toNat == 0x0B || c.toNat == 0x0C ||
  c.toNat == 0x0D || c.toNat == 0x20 || c.toNat == 0xA0 || c.toNat == 0x1680 ||
  (0x2000 ≤ c.toNat && c.toNat ≤ 0x200A) ||
  c.toNat == 0x2028 || c.toNat == 0x2029 || c.toNat == 0x202F ||
  c.toNat == 0x205F || c.toNat == 0x3000 || c.toNat == 0xFEFF

/-- The method `String.prototype.trim` on the list of characters of a string. -/
def jsTrimChars (cs : List Char) : List Char :=
  ((cs.dropWhile isJsWhiteSpace).reverse.dropWhile isJsWhiteSpace).reverse

/-- The call `s.trim()`. -/
def jsTrim (s : String) : String :=
  String.mk (jsTrimChars s.data)

/-- JavaScript truthiness of a string value: every string but the empty one. -/
def truthyString (s : String) : Bool :=
  !s.data.isEmpty

/-- The call `parts.join(' ')`. -/
def joinSpace (parts : List String) : String :=
  String.intercalate " " parts

/-- The call `path.join(a, b, ...)`, with a path kept as the text of its segments
joined by the separator; the normalisation of `.`, `..` and doubled separators
is left out. -/
def pathJoin (parts : List String) : String :=
  String.intercalate "/" parts

/-! ## JavaScript objects

An ordinary object is the list of its own properties in order of creation;
every operation below keeps the keys distinct. -/

/-- An ordinary object with values in `α`. -/
abbrev JsObject (α : Type) := List (String × α)

namespace JsObject

variable {α : Type}

/-- The value `o[k]` of an own property: `none` is `undefined`. -/
def getProp (o : JsObject α) (k : String) : Option α :=
  match o with
  | [] => none
  | (k1, v) :: rest => if k1 = k then some v else getProp rest k

/-- The assignment `o[k] = v`: an existing property keeps its place and takes the new value,
a new property is created last. -/
def setProp (o : JsObject α) (k : String) (v : α) : JsObject α :=
  match o with
  | [] => [(k, v)]
  | (k1, v1) :: rest => if k1 = k then (k1, v) :: rest else (k1, v1) :: setProp rest k v

/-- The statement `delete o[k]`. -/
def deleteProp (o : JsObject α) (k : String) : JsObject α :=
  o.filter (fun p => p.1 ≠ k)

/-- The value of the decimal digit `c`, if it is one. -/
def digitValue (c : Char) : Option Nat :=
  if 48 ≤ c.toNat ∧ c.toNat ≤ 57 then some (c.toNat - 48) else none

/-- The number written by a list of decimal digits, most significant first. -/
def digitsValue (acc : Nat) (cs : List Char) : Option Nat :=
  match cs with
  | [] => some acc
  | c :: rest =>
    match digitValue c with
    | none => none
    | some d => digitsValue (10 * acc + d) rest

/-- The array index a property key denotes, if any: a canonical numeric string
(no leading zero) of an integer from 0 to 2^32 - 2. -/
def arrayIndex (k : String) : Option Nat :=
  match k.data with
  | [] => none
  | [c] => digitValue c
  | c :: rest =>
    if c = '0' then none
    else
      match digitsValue 0 (c :: rest) with
      | none => none
      | some n => if n < 2 ^ 32 - 1 then some n else none

/-- Insert an indexed entry into a list of entries sorted by ascending index. -/
def insertByIndex (e : Nat × String × α) (sorted : List (Nat × String × α)) :
    List (Nat × String × α) :=
  match sorted with
  | [] => [e]
  | e1 :: rest => if e.1 ≤ e1.1 then e :: e1 :: rest else e1 :: insertByIndex e rest

/-- Sort the indexed entries by ascending index. -/
def sortByIndex (es : List (Nat × String × α)) : List (Nat × String × α) :=
  match es with
  | [] => []
  | e :: rest => insertByIndex e (sortByIndex rest)

/-- The entries of `o` whose key is an array index, with that index. -/
def indexEntries (o : JsObject α) : List (Nat × String × α) :=
  o.filterMap (fun p => (arrayIndex p.1).map (fun n => (n, p.1, p.2)))

/-- The entries `Object.entries(o)` of an ordinary object, in the order of
`OrdinaryOwnPropertyKeys`: array-index keys in ascending numeric order, then
the other keys in order of creation. -/
def ownEntries (o : JsObject α) : List (String × α) :=
  (sortByIndex (indexEntries o)).map (fun e => e.2) ++
    o.filter (fun p => (arrayIndex p.1).isNone)

/-- Copy the listed properties into `target`, one `o[k] = v` after the other. -/
def assignEntries (target : JsObject α) (es : List (String × α)) : JsObject α :=
  es.foldl (fun acc p => setProp acc p.1 p.2) target

/-- The object `JSON.parse` builds from the members of a JSON object text, in
the order they are written (a repeated name overwrites). -/
def ofMembers (members : List (String × α)) : JsObject α :=
  assignEntries [] members

/-- The spread `...src` inside an object literal whose properties so far are
`target`; spreading `undefined` copies nothing. -/
def spreadInto (target : JsObject α) (src : Option (JsObject α)) : JsObject α :=
  match src with
  | none => target
  | some o => assignEntries target (ownEntries o)

end JsObject

/-- A JSON value. -/
inductive Json where
  | null
  | bool (b : Bool)
  | num (n : Int)
  | str (s : String)
  | arr (items : List Json)
  | obj (members : List (String × Json))


/-- The manifest `package.json`, a JSON object. -/
abbrev Manifest := JsObject Json

/-- An entry of a directory: a regular file with its content, or a directory
with everything below it, each by its relative path, a file with its content
and a directory without one. -/
inductive Node where
  | file (content : String)
  | dir (below : List (String × Option String))
  deriving DecidableEq

/-- The entries of one directory, each under its name. -/
abbrev Dir := List (String × Node)

/-- Whether `name` is the name of a directory entry: one path segment. -/
def simpleName (name : String) : Bool :=
  !name.data.isEmpty && name.data.all (fun c => c != '/') && name != "." && name != ".."

/-- The entries of the target directory on disk, each under its path. -/
abbrev FileSystem := List (String × Node)

namespace FileSystem

/-- The entry at `path`, if there is one. -/
def lookup (fs : FileSystem) (path : String) : Option Node :=
  match fs with
  | [] => none
  | (p, node) :: rest => if p = path then some node else lookup rest path

/-- The file system without the entry at `path`. -/
def remove (fs : FileSystem) (path : String) : FileSystem :=
  fs.filter (fun e => e.1 ≠ path)

/-- The file system after the entry `node` has gone from `src` to `dst`: what
was at `dst` is replaced, `src` is gone. -/
def move (fs : FileSystem) (src dst : String) (node : Node) : FileSystem :=
  (dst, node) :: remove (remove fs src) dst

/-- The system call `rename(src, dst)` of POSIX: a file replaces a file, a
directory goes with everything below it and replaces an empty directory; a
missing source, a file onto a directory, a directory onto a file and a
directory onto a directory that is not empty are errors. -/
def rename (fs : FileSystem) (src dst : String) : Except String FileSystem :=
  match lookup fs src with
  | none => Except.error "ENOENT: no such file or directory"
  | some (Node.file content) =>
    match lookup fs dst with
    | some (Node.dir _) => Except.error "EISDIR: illegal operation on a directory"
    | _ => Except.ok (move fs src dst (Node.file content))
  | some (Node.dir below) =>
    match lookup fs dst with
    | none => Except.ok (move fs src dst (Node.dir below))
    | some (Node.file _) => Except.error "ENOTDIR: not a directory"
    | some (Node.dir []) => Except.ok (move fs src dst (Node.dir below))
    | some (Node.dir (_ :: _)) => Except.error "ENOTEMPTY: directory not empty"

/-- The entries `root` of the directory `base`, each under its path. -/
def placeAt (base : String) (root : Dir) : FileSystem :=
  root.map (fun e => (pathJoin [base, e.1], e.2))

/-- Whether `renameSync(src, dst)` goes through: the system does not refuse it
and `rename` has no error. -/
def renameWorks (fs : FileSystem) (refused : Bool) (src dst : String) : Bool :=
  !refused &&
    match rename fs src dst with
    | Except.ok _ => true
    | Except.error _ => false

/-- The file system after `renameSync(src, dst)` has been tried. -/
def afterRename (fs : FileSystem) (refused : Bool) (src dst : String) : FileSystem :=
  if refused then fs
  else
    match rename fs src dst with
    | Except.ok renamed => renamed
    | Except.error _ => fs

end FileSystem

/-! ## The template's `template.json` -/

/-- The `package` member of `template.json`; each member is optional and is
given by the members of its JSON object text. -/
structure TemplatePackage where
  scriptsMembers : Option (List (String × String))
  dependenciesMembers : Option (List (String × String))
  devDependenciesMembers : Option (List (String × String))
  deriving DecidableEq

namespace TemplatePackage

/-- The value of `templatePackage.scripts`. -/
def scripts (p : TemplatePackage) : Option (JsObject String) :=
  p.scriptsMembers.map JsObject.ofMembers

/-- The value of `templatePackage.dependencies`. -/
def dependencies (p : TemplatePackage) : Option (JsObject String) :=
  p.dependenciesMembers.map JsObject.ofMembers

/-- The value of `templatePackage.devDependencies`. -/
def devDependencies (p : TemplatePackage) : Option (JsObject String) :=
  p.devDependenciesMembers.map JsObject.ofMembers

/-- The empty object literal. -/
def empty : TemplatePackage :=
  ⟨none, none, none⟩

end TemplatePackage

/-- The content of `template.json`. -/
structure TemplateInfo where
  package : Option TemplatePackage
  deriving DecidableEq

/-! ## Observable behaviour -/

/-- The side effects the script can have, each recorded when the call is made. -/
inductive Event where
  | consoleLog (msg : String)
  | consoleLogInfo (info : TemplateInfo)
  | consoleError (msg : String)
  | prompt (name : String) (message : String)
  | promptRejected (message : String)
  | mkdirSync (path : String)
  | execSync (command : String)
  | copySync (src : String) (dst : String)
  | renameSync (src : String) (dst : String)
  | writeFileSync (path : String) (content : Manifest)

/-- The ways a statement ends other than normally. -/
inductive Halt where
  | exit (code : Nat)
  | thrown (err : String)
  | awaitingInput
  deriving DecidableEq

deriving instance DecidableEq for Except

/-- The state the script works on: the files on disk, and the manifest
`package.json` of the target directory from the moment the script writes it. -/
structure Sys where
  fs : FileSystem
  manifest : Option Manifest

/-- What a statement did: the side effects in the order they happened, the
state it leaves and its value or the way it ended. -/
structure Outcome (α : Type) where
  events : List Event
  sys : Sys
  result : Except Halt α

/-- Everything the script does not decide by itself. -/
structure World where
  argv2 : Option String
  cwd : String
  targetExists : Bool
  choice : Fin 3
  customInputs : List String
  mkdirFails : Bool
  yarnMissing : Bool
  npmInitFails : Bool
  templateInstallFails : Bool
  copied : Option Dir
  renameRefused : String → Bool
  templateJson : Option TemplateInfo
  packageJson : Option (List (String × Json))
  writeFails : Bool
  depsInstallFails : Bool
  devDepsInstallFails : Bool
  removeFails : Bool
  installEffect : String → Manifest → Manifest

/-! ## Statements with side effects -/

/-- A statement, run from a state. -/
def Script (α : Type) : Type :=
  Sys → Outcome α

namespace Script

variable {α β : Type}

/-- A statement without effect. -/
def ret (a : α) : Script α :=
  fun s => ⟨[], s, Except.ok a⟩

/-- Sequencing: the second statement runs only when the first ends normally. -/
def andThen (m : Script α) (f : α → Script β) : Script β :=
  fun s =>
    match (m s).result with
    | Except.ok a =>
      ⟨(m s).events ++ (f a (m s).sys).events, (f a (m s).sys).sys, (f a (m s).sys).result⟩
    | Except.error h => ⟨(m s).events, (m s).sys, Except.error h⟩

instance : Monad Script where
  pure := ret
  bind := andThen

/-- Record a side effect. -/
def emit (e : Event) : Script Unit :=
  fun s => ⟨[e], s, Except.ok ()⟩

/-- End abnormally. -/
def halt (h : Halt) : Script α :=
  fun s => ⟨[], s, Except.error h⟩

/-- Replace the state. -/
def update (f : Sys → Sys) : Script Unit :=
  fun s => ⟨[], f s, Except.ok ()⟩

/-- The statement `try body catch (err) handler`: only a thrown error is
caught, `process.exit` is not. -/
def tryCatch (body : Script α) (handler : String → Script α) : Script α :=
  fun s =>
    match (body s).result with
    | Except.error (Halt.thrown err) =>
      ⟨(body s).events ++ (handler err (body s).sys).events,
        (handler err (body s).sys).sys, (handler err (body s).sys).result⟩
    | _ => body s

/-- The method `list.forEach(f)`. -/
def forEach {γ : Type} (xs : List γ) (f : γ → Script Unit) : Script Unit :=
  match xs with
  | [] => ret ()
  | x :: rest => andThen (f x) (fun _ => forEach rest f)

end Script

open Script

/-- The function `chalk.<colour>(text)`: colours are not modelled. -/
def chalk (text : String) : String :=
  text

/-- The call `console.log(msg)`. -/
def consoleLog (msg : String) : Script Unit :=
  emit (Event.consoleLog msg)

/-- The call `console.error(msg)`. -/
def consoleError (msg : String) : Script Unit :=
  emit (Event.consoleError msg)

/-- The call `process.exit(code)`. -/
def processExit {α : Type} (code : Nat) : Script α :=
  halt (Halt.exit code)

/-- The call `execSync(command, ...)`: it is recorded, and throws when the
command fails. -/
def execSync (command : String) (fails : Bool) : Script Unit := do
  emit (Event.execSync command)
  if fails then halt (Halt.thrown ("Error: Command failed: " ++ command))

/-- The call `fs.mkdirSync(path, { recursive: true })`. -/
def mkdirSync (path : String) (fails : Bool) : Script Unit := do
  emit (Event.mkdirSync path)
  if fails then halt (Halt.thrown ("Error: mkdir " ++ path))

/-- The call `fs.copySync(src, dst)`: on success the entries of `dst` are
those the world says the copy leaves. -/
def copySync (src dst : String) (result : Option Dir) : Script Unit := do
  emit (Event.copySync src dst)
  match result with
  | none => halt (Halt.thrown ("Error: copy " ++ src))
  | some root => update (fun s => ⟨FileSystem.placeAt dst root, s.manifest⟩)

/-- The call `fs.renameSync(src, dst)`: throws when the system refuses the
rename (permissions, a busy file) and when `rename` has an error. -/
def renameSync (src dst : String) (refused : Bool) : Script Unit := do
  emit (Event.renameSync src dst)
  fun s =>
    if refused then
      ⟨[], s, Except.error (Halt.thrown ("Error: EPERM: operation not permitted, rename " ++ src))⟩
    else
      match s.fs.rename src dst with
      | Except.error code =>
        ⟨[], s, Except.error (Halt.thrown ("Error: " ++ code ++ ", rename " ++ src))⟩
      | Except.ok renamed => ⟨[], ⟨renamed, s.manifest⟩, Except.ok ()⟩

/-- The call `fs.writeFileSync(path, JSON.stringify(content, null, 2))` on the
manifest. -/
def writeFileSync (path : String) (content : Manifest) (fails : Bool) : Script Unit := do
  emit (Event.writeFileSync path content)
  if fails then halt (Halt.thrown ("Error: write " ++ path))
  update (fun s => ⟨s.fs, some content⟩)

/-- The call `require(path)` of a JSON file: throws when the file cannot be
loaded. -/
def requireJson {α : Type} (path : String) (content : Option α) : Script α :=
  match content with
  | none => halt (Halt.thrown ("Error: Cannot find module " ++ path))
  | some a => ret a

/-- The call `Object.entries(x)`: throws on `undefined`. -/
def objectEntries (x : Option (JsObject String)) : Script (List (String × String)) :=
  match x with
  | none => halt (Halt.thrown "TypeError: Cannot convert undefined or null to object")
  | some o => ret (JsObject.ownEntries o)

/-- What the package manager does to the manifest on disk. -/
def updateManifest (f : Manifest → Manifest) : Script Unit :=
  update (fun s => ⟨s.fs, s.manifest.map f⟩)

/-- What a remove command does to the manifest: the package is no longer a
member of `dependencies`. -/
def removeDependency (name : String) (m : Manifest) : Manifest :=
  match JsObject.getProp m "dependencies" with
  | some (Json.obj deps) =>
    JsObject.setProp m "dependencies" (Json.obj (JsObject.deleteProp deps name))
  | _ => m

/-! ## The script -/

/-- One entry of the selection list. -/
structure TemplateOption where
  name : String
  value : String

/-- Lines 19-23. -/
def templates : List TemplateOption :=
  [⟨"Typescript", "cra-template-universal-ts"⟩,
   ⟨"Default JS", "cra-template-universal"⟩,
   ⟨"Custom Template (Enter Manually)", "custom"⟩]

/-- What a `validate` function returns: `true`, or the message to show. -/
inductive Validation where
  | accepted
  | message (text : String)
  deriving DecidableEq

/-- Lines 50-51, the `validate` function of the custom-template prompt. -/
def validate (input : String) : Validation :=
  if truthyString (jsTrim input) then Validation.accepted
  else Validation.message "❗Template name cannot be empty"

/-- The list prompt of `inquirer`: the answer is the value of the chosen entry. -/
def promptList (name message : String) (choices : List TemplateOption)
    (choice : Fin choices.length) : Script String := do
  emit (Event.prompt name message)
  pure (choices.get choice).value

/-- The submissions to an input prompt, one after the other: a rejected one
shows the message and the prompt asks again, the first accepted one is the
answer; with nothing accepted the prompt is still waiting. -/
def submitInputs (check : String → Validation) (inputs : List String) : Script String :=
  match inputs with
  | [] => halt Halt.awaitingInput
  | input :: rest =>
    match check input with
    | Validation.accepted => ret input
    | Validation.message text =>
      andThen (emit (Event.promptRejected text)) (fun _ => submitInputs check rest)

/-- The input prompt of `inquirer`. -/
def promptInput (name message : String) (check : String → Validation)
    (inputs : List String) : Script String := do
  emit (Event.prompt name message)
  submitInputs check inputs

/-- Line 102. -/
def filesToRename : List String :=
  ["gitignore", "eslintrc", "prettierrc", "prettierignore"]

/-- Lines 124-132, the object literal before the spread. -/
def defaultScripts : JsObject String :=
  [("start", "universal-scripts start"),
   ("build", "universal-scripts build"),
   ("test", "universal-scripts test"),
   ("serve", "node build/server/server.js"),
   ("lint", "eslint src"),
   ("heroku-postbuild", "npm run build")]

/-- A table of strings as the JSON value `JSON.stringify` writes for it: the
members in the order of `Object.entries`. -/
def Json.ofStrings (o : JsObject String) : Json :=
  Json.obj ((JsObject.ownEntries o).map (fun p => (p.1, Json.str p.2)))

/-- Line 122, `templateInfo.package || {}`. -/
def templatePackageOf (templateInfo : TemplateInfo) : TemplatePackage :=
  match templateInfo.package with
  | some p => p
  | none => TemplatePackage.empty

/-- Lines 124-140: the changes made to `appPackage` before it is written. -/
def mergeManifest (appPackage : Manifest) (templatePackage : TemplatePackage) : Manifest :=
  let appPackage := JsObject.setProp appPackage "scripts"
    (Json.ofStrings (JsObject.spreadInto defaultScripts templatePackage.scripts))
  let appPackage := JsObject.setProp appPackage "engines" (Json.obj [("node", Json.str ">=18")])
  let appPackage := JsObject.setProp appPackage "private" (Json.bool true)
  JsObject.deleteProp appPackage "main"

/-- Lines 147-150, `toInstallDeps`. -/
def toInstallDeps (templatePackage : TemplatePackage) : List (String × String) :=
  JsObject.ownEntries
    (JsObject.setProp (JsObject.spreadInto [] templatePackage.dependencies)
      "universal-scripts" "latest")

/-- Lines 156 and 168, `([dependency, version]) => dependency + '@' + version`. -/
def depToken (entry : String × String) : String :=
  entry.1 ++ "@" ++ entry.2

/-- Lines 16-17, `appName`. -/
def appNameOf (w : World) : String :=
  match w.argv2 with
  | some arg => if truthyString arg then arg else "my-app"
  | none => "my-app"

/-- Line 17, `appPath`. -/
def appPathOf (w : World) : String :=
  pathJoin [w.cwd, appNameOf w]

/-- Lines 34-55: the two prompts; the value is `templateName`. -/
def selectTemplate (w : World) : Script String := do
  let template ← promptList "template" "Select a template:" templates w.choice
  if template = "custom" then
    promptInput "customTemplate" "Enter the name of the custom template:" validate
      w.customInputs
  else pure template

/-- Lines 64-70: the value is `shouldUseYarn`. -/
def detectYarn (w : World) : Script Bool :=
  Script.tryCatch
    (do execSync "yarn --version" w.yarnMissing; pure true)
    (fun _ => pure false)

/-- Line 72, `cmd`. -/
def cmdOf (shouldUseYarn : Bool) : List String :=
  if shouldUseYarn then ["yarn", "add"] else ["npm", "install", "--save"]

/-- Line 73, `cmdRemove`. -/
def cmdRemoveOf (shouldUseYarn : Bool) : List String :=
  if shouldUseYarn then ["yarn", "remove"] else ["npm", "uninstall"]

/-- Line 74, `cmdDev`. -/
def cmdDevOf (shouldUseYarn : Bool) : List String :=
  if shouldUseYarn then ["yarn", "add", "-D"] else ["npm", "install", "-D"]

/-- Lines 76-90: the manifest is initialised and the template installed. -/
def installTemplate (w : World) (cmd : List String) (templateName : String) : Script Unit :=
  Script.tryCatch
    (do execSync "npm init -y" w.npmInitFails
        execSync (joinSpace cmd ++ " " ++ templateName) w.templateInstallFails)
    (fun err => do
      consoleError (chalk ("❌ Error installing template " ++ templateName ++ ": " ++ " " ++ err))
      processExit 1)

/-- Lines 106-113: one step of `filesToRename.forEach`.  The handler builds a
coloured message and does nothing with it. -/
def renameOne (w : World) (appPath templateName file : String) : Script Unit :=
  Script.tryCatch
    (renameSync (pathJoin [appPath, file]) (pathJoin [appPath, "." ++ file])
      (w.renameRefused (pathJoin [appPath, file])))
    (fun err =>
      let _unused := chalk ("❌ Error copying template " ++ templateName ++ ": " ++ " " ++ err)
      ret ())

/-- Lines 102-114. -/
def renameDotfiles (w : World) (appPath templateName : String) : Script Unit :=
  forEach filesToRename (renameOne w appPath templateName)

/-- Lines 116-145: the value is `templateInfo`. -/
def mergeStep (w : World) (appPath templateName : String) : Script TemplateInfo := do
  let templateInfo ← requireJson
    (pathJoin [appPath, "node_modules", templateName, "template.json"]) w.templateJson
  let appPackage ← requireJson (pathJoin [appPath, "package.json"])
    (w.packageJson.map JsObject.ofMembers)
  let templatePackage := templatePackageOf templateInfo
  let appPackage := mergeManifest appPackage templatePackage
  writeFileSync (pathJoin [appPath, "package.json"]) appPackage w.writeFails
  pure templateInfo

/-- Lines 147-181. -/
def installDependencies (w : World) (cmd cmdDev cmdRemove : List String)
    (templateName : String) (templateInfo : TemplateInfo) : Script Unit := do
  let templatePackage := templatePackageOf templateInfo
  -- lines 147-151
  let toInstallDeps := toInstallDeps templatePackage
  let toInstallDevDeps ← objectEntries templatePackage.devDependencies
  -- lines 153-162
  if toInstallDeps.length ≠ 0 then
    consoleLog "📥 Installing dependencies..."
    let cmd := cmd ++ toInstallDeps.map depToken
    execSync (joinSpace cmd) w.depsInstallFails
    updateManifest (w.installEffect (joinSpace cmd))
  else
    consoleLog "🔹 Template has no dependencies; skipping install..."
    emit (Event.consoleLogInfo templateInfo)
  -- lines 164-175
  if toInstallDevDeps.length ≠ 0 then
    consoleLog "📥 Installing dev dependencies..."
    let cmdDev := cmdDev ++ toInstallDevDeps.map depToken
    execSync (joinSpace cmdDev) w.devDepsInstallFails
    updateManifest (w.installEffect (joinSpace cmdDev))
  else
    consoleLog "🔹 Template has no dev dependencies; skipping install..."
    emit (Event.consoleLogInfo templateInfo)
  -- lines 177-181
  consoleLog "🧹 Removing template dependency..."
  execSync (joinSpace cmdRemove ++ " " ++ templateName) w.removeFails
  updateManifest (removeDependency templateName)

/-- Lines 57-190: everything after the prompts. -/
def scaffold (w : World) (templateName : String) : Script Unit := do
  let appName := appNameOf w
  let appPath := appPathOf w
  -- lines 57-61
  consoleLog (chalk ("📦 Using template: " ++ templateName))
  mkdirSync appPath w.mkdirFails
  consoleLog "📥 Installing template..."
  -- lines 64-74
  let shouldUseYarn ← detectYarn w
  let cmd := cmdOf shouldUseYarn
  let cmdRemove := cmdRemoveOf shouldUseYarn
  let cmdDev := cmdDevOf shouldUseYarn
  -- lines 76-90
  installTemplate w cmd templateName
  -- lines 92-100
  consoleLog "📂 Copying template files..."
  let templatePath := pathJoin [appPath, "node_modules", templateName, "template"]
  copySync templatePath appPath w.copied
  -- lines 102-114
  renameDotfiles w appPath templateName
  -- lines 116-145
  let templateInfo ← mergeStep w appPath templateName
  -- lines 147-181
  installDependencies w cmd cmdDev cmdRemove templateName templateInfo
  -- lines 184-190
  consoleLog (chalk "✅ Init completed." ++ " Now you might want to run:")
  consoleLog (chalk "  $ " ++
    chalk ("cd " ++ appName ++ (" && " ++ (if shouldUseYarn then "yarn" else "npm") ++ " start")))

/-- Lines 16-190, the whole script. -/
def script (w : World) : Script Unit := do
  -- lines 25-32
  consoleLog (chalk ("🚀 Creating proyect in: " ++ appPathOf w))
  if w.targetExists then
    consoleError (chalk "⚠️ This directory already exists. Use another name.")
    processExit 1
  -- lines 34-55
  let templateName ← selectTemplate w
  scaffold w templateName

/-- The state before the script starts. -/
def Sys.initial : Sys :=
  ⟨[], none⟩

/-- A run of the script in the world `w`. -/
def run (w : World) : Outcome Unit :=
  script w Sys.initial

/-- The exit code of the process, when it has ended: `process.exit(code)`
gives `code`, an uncaught exception gives 1, the end of the script gives 0. -/
def exitCode (r : Except Halt Unit) : Option Nat :=
  match r with
  | Except.ok _ => some 0
  | Except.error (Halt.exit code) => some code
  | Except.error (Halt.thrown _) => some 1
  | Except.error Halt.awaitingInput => none

/-! ## Reading a list of events -/

/-- The commands given to `execSync`, in order. -/
def execCommands (events : List Event) : List String :=
  events.filterMap (fun e =>
    match e with
    | Event.execSync command => some command
    | _ => none)

/-- The messages given to `console.log` and `console.error`, in order. -/
def consoleMessages (events : List Event) : List String :=
  events.filterMap (fun e =>
    match e with
    | Event.consoleLog msg => some msg
    | Event.consoleError msg => some msg
    | _ => none)

/-- The calls of `renameSync`, in order. -/
def renameCalls (events : List Event) : List (String × String) :=
  events.filterMap (fun e =>
    match e with
    | Event.renameSync src dst => some (src, dst)
    | _ => none)

/-- Whether the event is console output. -/
def Event.isConsole (e : Event) : Bool :=
  match e with
  | Event.consoleLog _ => true
  | Event.consoleLogInfo _ => true
  | Event.consoleError _ => true
  | _ => false

/-- Whether the event is a prompt shown to the operator. -/
def Event.isPrompt (e : Event) : Bool :=
  match e with
  | Event.prompt _ _ => true
  | Event.promptRejected _ => true
  | _ => false

/-- Whether the event changes the file system. -/
def Event.isFsMutation (e : Event) : Bool :=
  match e with
  | Event.mkdirSync _ => true
  | Event.copySync _ _ => true
  | Event.renameSync _ _ => true
  | Event.writeFileSync _ _ => true
  | _ => false

/-- Whether the event is an external command. -/
def Event.isExec (e : Event) : Bool :=
  match e with
  | Event.execSync _ => true
  | _ => false

/-! ## Concrete inputs -/

/-- A target directory after the copy with the four dotfile templates, one of
them a directory. -/
def rootWithDotfiles : Dir :=
  [("gitignore", Node.file "node_modules"),
   ("eslintrc", Node.dir [("base.json", some "{}")]),
   ("prettierrc", Node.file "{}"), ("prettierignore", Node.file "build"),
   ("src", Node.dir [("index.ts", some "export {}")])]

/-- A target directory after the copy where `gitignore` is a file and
`.gitignore` is a directory. -/
def rootWithDotDirectory : Dir :=
  [("gitignore", Node.file "node_modules"),
   (".gitignore", Node.dir [("local", some "dist")]),
   ("src", Node.dir [("index.ts", some "export {}")])]

/-- A `template.json` that declares scripts, dependencies and dev-dependencies. -/
def templateInfoFull : TemplateInfo :=
  ⟨some ⟨some [("start", "custom start"), ("storybook", "storybook dev")],
    some [("react", "^18.2.0"), ("universal-scripts", "3.0.0")],
    some [("jest", "^29.0.0")]⟩⟩

/-- The manifest `npm init -y` and the template install leave. -/
def generatedPackageJson : List (String × Json) :=
  [("name", Json.str "demo"), ("version", Json.str "1.0.0"), ("main", Json.str "index.js"),
   ("scripts", Json.obj [("test", Json.str "echo \"Error: no test specified\" && exit 1")]),
   ("dependencies", Json.obj [("cra-template-universal-ts", Json.str "^1.0.0")])]

/-- A run where everything succeeds: Typescript template, yarn present. -/
def worldTypescript : World where
  argv2 := some "demo"
  cwd := "/home/u"
  targetExists := false
  choice := 0
  customInputs := []
  mkdirFails := false
  yarnMissing := false
  npmInitFails := false
  templateInstallFails := false
  copied := some rootWithDotfiles
  renameRefused := fun _ => false
  templateJson := some templateInfoFull
  packageJson := some generatedPackageJson
  writeFails := false
  depsInstallFails := false
  devDepsInstallFails := false
  removeFails := false
  installEffect := fun _ m => m

/-- The same, with the target directory already there. -/
def worldExisting : World :=
  { worldTypescript with targetExists := true }

/-- The same, with a failing install of the template package. -/
def worldInstallFails : World :=
  { worldTypescript with templateInstallFails := true }

/-- The same, with a `template.json` whose `package` has no `devDependencies`. -/
def worldNoDevDependencies : World :=
  { worldTypescript with
    templateJson := some ⟨some ⟨none, some [("react", "^18.2.0")], none⟩⟩ }

/-- The Default JS template, whose `template.json` lists the template package
itself among its dependencies and declares no dev-dependency. -/
def worldSelfDeclared : World :=
  { worldTypescript with
    choice := 1
    templateJson := some ⟨some ⟨none, some [("cra-template-universal", "1.0.0")], some []⟩⟩ }

/-- The same as `worldTypescript`, with a template that ships none of the four
dotfile templates. -/
def worldNoDotfiles : World :=
  { worldTypescript with copied := some [("src", Node.dir [("index.ts", some "export {}")])] }

/-- The Custom entry, with two blank submissions before a name. -/
def worldCustom : World :=
  { worldTypescript with choice := 2, customInputs := ["", "  \t", "my-template", "other"] }


/-! # Properties

## Objects -/

set_option maxRecDepth 100000

namespace JsObject

variable {α : Type}

theorem getProp_setProp_self (o : JsObject α) (k : String) (v : α) :
    getProp (setProp o k v) k = some v := by
  induction o with
  | nil => simp [setProp, getProp]
  | cons p rest ih =>
    obtain ⟨k1, v1⟩ := p
    by_cases h : k1 = k
    · simp [setProp, getProp, h]
    · simp [setProp, getProp, h, ih]

theorem getProp_setProp_ne (o : JsObject α) (k k2 : String) (v : α) (h : k ≠ k2) :
    getProp (setProp o k v) k2 = getProp o k2 := by
  induction o with
  | nil => simp [setProp, getProp, h]
  | cons p rest ih =>
    obtain ⟨k1, v1⟩ := p
    by_cases h1 : k1 = k
    · subst h1
      simp [setProp, getProp, h]
    · by_cases h2 : k1 = k2
      · subst h2
        simp [setProp, getProp, h1]
      · simp [setProp, getProp, h1, h2, ih]

theorem getProp_deleteProp_self (o : JsObject α) (k : String) :
    getProp (deleteProp o k) k = none := by
  induction o with
  | nil => simp [deleteProp, getProp]
  | cons p rest ih =>
    obtain ⟨k1, v1⟩ := p
    by_cases h : k1 = k
    · simpa [deleteProp, h] using ih
    · simpa [deleteProp, List.filter_cons, h, getProp] using ih

theorem getProp_deleteProp_ne (o : JsObject α) (k k2 : String) (h : k ≠ k2) :
    getProp (deleteProp o k) k2 = getProp o k2 := by
  induction o with
  | nil => simp [deleteProp, getProp]
  | cons p rest ih =>
    obtain ⟨k1, v1⟩ := p
    by_cases h1 : k1 = k
    · subst h1
      simpa [deleteProp, getProp, h] using ih
    · by_cases h2 : k1 = k2
      · subst h2
        simp [deleteProp, List.filter_cons, getProp, h1]
      · simpa [deleteProp, List.filter_cons, getProp, h1, h2] using ih

theorem getProp_eq_none_iff (o : JsObject α) (k : String) :
    getProp o k = none ↔ k ∉ o.map Prod.fst := by
  induction o with
  | nil => simp [getProp]
  | cons p rest ih =>
    obtain ⟨k1, v1⟩ := p
    by_cases h : k1 = k
    · simp [getProp, h]
    · simp [getProp, h, ih, Ne.symm h]

theorem getProp_eq_some_iff (o : JsObject α) (hnd : (o.map Prod.fst).Nodup) (k : String) (v : α) :
    getProp o k = some v ↔ (k, v) ∈ o := by
  induction o with
  | nil => simp [getProp]
  | cons p rest ih =>
    obtain ⟨k1, v1⟩ := p
    simp only [List.map_cons, List.nodup_cons] at hnd
    by_cases h : k1 = k
    · subst h
      have hnot : ∀ x, (k1, x) ∉ rest := fun x hx => hnd.1 (List.mem_map_of_mem Prod.fst hx)
      simp [getProp, hnot, eq_comm]
    · simp [getProp, h, ih hnd.2, Ne.symm h]

theorem keys_setProp (o : JsObject α) (k : String) (v : α) :
    (setProp o k v).map Prod.fst =
      if k ∈ o.map Prod.fst then o.map Prod.fst else o.map Prod.fst ++ [k] := by
  induction o with
  | nil => simp [setProp]
  | cons p rest ih =>
    obtain ⟨k1, v1⟩ := p
    by_cases h : k1 = k
    · simp [setProp, h]
    · simp only [setProp, h, if_false, List.map_cons, ih, List.mem_cons, Ne.symm h, false_or]
      split <;> simp

theorem nodup_keys_setProp (o : JsObject α) (k : String) (v : α)
    (hnd : (o.map Prod.fst).Nodup) : ((setProp o k v).map Prod.fst).Nodup := by
  rw [keys_setProp]
  split
  · exact hnd
  · rename_i h
    exact List.Nodup.append hnd (List.nodup_singleton k) (by simpa using h)

theorem nodup_keys_assignEntries (es : List (String × α)) (target : JsObject α)
    (hnd : (target.map Prod.fst).Nodup) : ((assignEntries target es).map Prod.fst).Nodup := by
  induction es generalizing target with
  | nil => simpa [assignEntries] using hnd
  | cons e rest ih =>
    simpa [assignEntries] using ih (setProp target e.1 e.2) (nodup_keys_setProp target e.1 e.2 hnd)

theorem nodup_keys_ofMembers (members : List (String × α)) :
    ((ofMembers members).map Prod.fst).Nodup :=
  nodup_keys_assignEntries members [] (by simp)

theorem getProp_assignEntries (es : List (String × α)) (hnd : (es.map Prod.fst).Nodup)
    (target : JsObject α) (k : String) :
    getProp (assignEntries target es) k =
      match getProp es k with
      | some v => some v
      | none => getProp target k := by
  induction es generalizing target with
  | nil => simp [assignEntries, getProp]
  | cons e rest ih =>
    obtain ⟨k1, v1⟩ := e
    simp only [List.map_cons, List.nodup_cons] at hnd
    have hstep : assignEntries target ((k1, v1) :: rest) =
        assignEntries (setProp target k1 v1) rest := by simp [assignEntries]
    rw [hstep, ih hnd.2]
    by_cases h : k1 = k
    · subst h
      have hnone : getProp rest k1 = none := (getProp_eq_none_iff rest k1).2 hnd.1
      simp [getProp, hnone, getProp_setProp_self]
    · simp [getProp, h, getProp_setProp_ne target k1 k v1 h]

theorem insertByIndex_perm (e : Nat × String × α) (l : List (Nat × String × α)) :
    (insertByIndex e l).Perm (e :: l) := by
  induction l with
  | nil => simp [insertByIndex]
  | cons e1 rest ih =>
    by_cases h : e.1 ≤ e1.1
    · simp [insertByIndex, h]
    · simp only [insertByIndex, h, if_false]
      exact (List.Perm.cons e1 ih).trans (List.Perm.swap e e1 rest)

theorem sortByIndex_perm (l : List (Nat × String × α)) : (sortByIndex l).Perm l := by
  induction l with
  | nil => simp [sortByIndex]
  | cons e rest ih =>
    simp only [sortByIndex]
    exact (insertByIndex_perm e (sortByIndex rest)).trans (List.Perm.cons e ih)

theorem indexEntries_map (o : JsObject α) :
    (indexEntries o).map (fun e => e.2) = o.filter (fun p => (arrayIndex p.1).isSome) := by
  induction o with
  | nil => simp [indexEntries]
  | cons p rest ih =>
    simp only [indexEntries] at ih
    cases h : arrayIndex p.1 <;> simp [indexEntries, List.filterMap_cons, List.filter_cons, h, ih]

theorem ownEntries_perm (o : JsObject α) : (ownEntries o).Perm o := by
  have h1 : ((sortByIndex (indexEntries o)).map (fun e => e.2)).Perm
      (o.filter (fun p => (arrayIndex p.1).isSome)) := by
    rw [← indexEntries_map]
    exact (sortByIndex_perm (indexEntries o)).map _
  have h2 : (o.filter (fun p => (arrayIndex p.1).isNone)) =
      o.filter (fun p => !(arrayIndex p.1).isSome) := by
    congr 1
    funext p
    cases arrayIndex p.1 <;> rfl
  unfold ownEntries
  rw [h2]
  exact (List.Perm.append_right _ h1).trans (List.filter_append_perm _ o)

theorem nodup_keys_ownEntries (o : JsObject α) (hnd : (o.map Prod.fst).Nodup) :
    ((ownEntries o).map Prod.fst).Nodup :=
  (((ownEntries_perm o).map Prod.fst).nodup_iff).2 hnd

theorem getProp_ownEntries (o : JsObject α) (hnd : (o.map Prod.fst).Nodup) (k : String) :
    getProp (ownEntries o) k = getProp o k := by
  cases h : getProp o k with
  | none =>
    rw [getProp_eq_none_iff] at h ⊢
    intro hk
    exact h ((((ownEntries_perm o).map Prod.fst).mem_iff).1 hk)
  | some v =>
    rw [getProp_eq_some_iff o hnd] at h
    rw [getProp_eq_some_iff _ (nodup_keys_ownEntries o hnd)]
    exact ((ownEntries_perm o).mem_iff).2 h

theorem getProp_spreadInto_some (target o : JsObject α) (hnd : (o.map Prod.fst).Nodup)
    (k : String) :
    getProp (spreadInto target (some o)) k =
      match getProp o k with
      | some v => some v
      | none => getProp target k := by
  simp only [spreadInto]
  rw [getProp_assignEntries _ (nodup_keys_ownEntries o hnd), getProp_ownEntries o hnd]

theorem getProp_map (o : JsObject α) {β : Type} (f : α → β) (k : String) :
    getProp (o.map (fun p => (p.1, f p.2))) k = (getProp o k).map f := by
  induction o with
  | nil => simp [getProp]
  | cons p rest ih =>
    obtain ⟨k1, v1⟩ := p
    by_cases h : k1 = k
    · simp [getProp, h]
    · simp [getProp, h, ih]

end JsObject

/-! ## Statements -/

namespace Script

variable {α β : Type}

theorem bind_def (m : Script α) (f : α → Script β) : (m >>= f) = andThen m f := rfl

theorem pure_def (a : α) : (pure a : Script α) = ret a := rfl

end Script

/-! ## The manifest merge -/

theorem mergeStep_events (w : World) (appPath templateName : String) (s : Sys)
    (templateInfo : TemplateInfo) (members : List (String × Json))
    (hti : w.templateJson = some templateInfo) (hpj : w.packageJson = some members) :
    (mergeStep w appPath templateName s).events =
      [Event.writeFileSync (pathJoin [appPath, "package.json"])
        (mergeManifest (JsObject.ofMembers members) (templatePackageOf templateInfo))] := by
  cases hw : w.writeFails <;>
    simp [mergeStep, hti, hpj, hw, requireJson, writeFileSync, bind_def, pure_def, andThen, ret,
      emit, halt, update]

theorem getProp_mergeManifest_scripts (appPackage : Manifest) (templatePackage : TemplatePackage) :
    JsObject.getProp (mergeManifest appPackage templatePackage) "scripts" =
      some (Json.ofStrings (JsObject.spreadInto defaultScripts templatePackage.scripts)) := by
  simp only [mergeManifest]
  rw [JsObject.getProp_deleteProp_ne _ "main" "scripts" (by decide),
    JsObject.getProp_setProp_ne _ "private" "scripts" _ (by decide),
    JsObject.getProp_setProp_ne _ "engines" "scripts" _ (by decide),
    JsObject.getProp_setProp_self]

theorem nodup_keys_defaultScripts : (defaultScripts.map Prod.fst).Nodup := by
  decide

theorem getProp_spread_defaultScripts (templatePackage : TemplatePackage) (k : String) :
    JsObject.getProp (JsObject.spreadInto defaultScripts templatePackage.scripts) k =
      match templatePackage.scripts with
      | some declared =>
        (match JsObject.getProp declared k with
          | some v => some v
          | none => JsObject.getProp defaultScripts k)
      | none => JsObject.getProp defaultScripts k := by
  cases hs : templatePackage.scripts with
  | none => rfl
  | some declared =>
    have hnd : (declared.map Prod.fst).Nodup := by
      cases hraw : templatePackage.scriptsMembers with
      | none => simp [TemplatePackage.scripts, hraw] at hs
      | some raw =>
        simp only [TemplatePackage.scripts, hraw, Option.map_some', Option.some.injEq] at hs
        rw [← hs]
        exact JsObject.nodup_keys_ofMembers raw
    rw [JsObject.getProp_spreadInto_some defaultScripts declared hnd k]
    cases hg : JsObject.getProp declared k <;> simp [hg]

theorem nodup_keys_spread_defaultScripts (templatePackage : TemplatePackage) :
    ((JsObject.spreadInto defaultScripts templatePackage.scripts).map Prod.fst).Nodup := by
  cases hs : templatePackage.scripts with
  | none => exact nodup_keys_defaultScripts
  | some declared => exact JsObject.nodup_keys_assignEntries _ _ nodup_keys_defaultScripts

theorem ownEntries_defaultScripts : JsObject.ownEntries defaultScripts = defaultScripts := by
  decide!

/-- C1: whatever the generated manifest and the template's `template.json`
hold, the merge step writes one manifest, and the `scripts` member of that
manifest is an object with distinct keys that maps every key the template
declares to the template's value, every other key of the fixed default table
to its default value, and has no further key; without a `package` or a
`scripts` member in `template.json` it is the default table. -/
theorem merged_scripts_table (w : World) (appPath templateName : String) (s : Sys)
    (templateInfo : TemplateInfo) (members : List (String × Json))
    (hti : w.templateJson = some templateInfo) (hpj : w.packageJson = some members) :
    ∃ (written : Manifest) (scripts : List (String × Json)),
      (mergeStep w appPath templateName s).events =
        [Event.writeFileSync (pathJoin [appPath, "package.json"]) written] ∧
      JsObject.getProp written "scripts" = some (Json.obj scripts) ∧
      (scripts.map Prod.fst).Nodup ∧
      (∀ k, JsObject.getProp scripts k =
        (match (templatePackageOf templateInfo).scripts with
          | some declared =>
            (match JsObject.getProp declared k with
              | some v => some v
              | none => JsObject.getProp defaultScripts k)
          | none => JsObject.getProp defaultScripts k).map Json.str) ∧
      (templateInfo.package = none ∨ (templatePackageOf templateInfo).scripts = none →
        scripts =
          [("start", Json.str "universal-scripts start"),
           ("build", Json.str "universal-scripts build"),
           ("test", Json.str "universal-scripts test"),
           ("serve", Json.str "node build/server/server.js"),
           ("lint", Json.str "eslint src"),
           ("heroku-postbuild", Json.str "npm run build")]) ∧
      defaultScripts =
        [("start", "universal-scripts start"), ("build", "universal-scripts build"),
         ("test", "universal-scripts test"), ("serve", "node build/server/server.js"),
         ("lint", "eslint src"), ("heroku-postbuild", "npm run build")] := by
  have hnd := nodup_keys_spread_defaultScripts (templatePackageOf templateInfo)
  refine ⟨mergeManifest (JsObject.ofMembers members) (templatePackageOf templateInfo),
    (JsObject.ownEntries
      (JsObject.spreadInto defaultScripts (templatePackageOf templateInfo).scripts)).map
      (fun p : String × String => (p.1, Json.str p.2)),
    mergeStep_events w appPath templateName s templateInfo members hti hpj,
    getProp_mergeManifest_scripts _ _, ?_, ?_, ?_, rfl⟩
  · rw [List.map_map]
    exact JsObject.nodup_keys_ownEntries _ hnd
  · intro k
    rw [JsObject.getProp_map, JsObject.getProp_ownEntries _ hnd,
      getProp_spread_defaultScripts]
  · intro hnone
    have hscripts : (templatePackageOf templateInfo).scripts = none := by
      cases hnone with
      | inl h => simp [templatePackageOf, h, TemplatePackage.empty, TemplatePackage.scripts]
      | inr h => exact h
    rw [hscripts]
    simp only [JsObject.spreadInto, ownEntries_defaultScripts]
    rfl

/-- C2: whatever the generated manifest and the template's `template.json`
hold, the manifest the merge step writes has `engines` equal to the object
with the single member `node: '>=18'`, has `private` equal to `true` and has
no `main` member. -/
theorem merged_engines_private_main (w : World) (appPath templateName : String) (s : Sys)
    (templateInfo : TemplateInfo) (members : List (String × Json))
    (hti : w.templateJson = some templateInfo) (hpj : w.packageJson = some members) :
    ∃ written : Manifest,
      (mergeStep w appPath templateName s).events =
        [Event.writeFileSync (pathJoin [appPath, "package.json"]) written] ∧
      JsObject.getProp written "engines" = some (Json.obj [("node", Json.str ">=18")]) ∧
      JsObject.getProp written "private" = some (Json.bool true) ∧
      JsObject.getProp written "main" = none := by
  refine ⟨mergeManifest (JsObject.ofMembers members) (templatePackageOf templateInfo),
    mergeStep_events w appPath templateName s templateInfo members hti hpj, ?_, ?_, ?_⟩
  · simp only [mergeManifest]
    rw [JsObject.getProp_deleteProp_ne _ "main" "engines" (by decide),
      JsObject.getProp_setProp_ne _ "private" "engines" _ (by decide),
      JsObject.getProp_setProp_self]
  · simp only [mergeManifest]
    rw [JsObject.getProp_deleteProp_ne _ "main" "private" (by decide),
      JsObject.getProp_setProp_self]
  · simp only [mergeManifest]
    exact JsObject.getProp_deleteProp_self _ "main"

/-! ## The prompts -/

theorem jsTrimChars_eq_nil_iff (cs : List Char) :
    jsTrimChars cs = [] ↔ ∀ c ∈ cs, isJsWhiteSpace c = true := by
  unfold jsTrimChars
  rw [List.reverse_eq_nil_iff, List.dropWhile_eq_nil_iff]
  constructor
  · intro h
    have hnil : cs.dropWhile isJsWhiteSpace = [] := by
      cases hd : cs.dropWhile isJsWhiteSpace with
      | nil => rfl
      | cons c rest =>
        have hc : isJsWhiteSpace c = true := h c (by simp [hd])
        have hne : cs.dropWhile isJsWhiteSpace ≠ [] := by simp [hd]
        have hhead := List.head_dropWhile_not isJsWhiteSpace cs hne
        simp [hd, hc] at hhead
    exact List.dropWhile_eq_nil_iff.1 hnil
  · intro h c hc
    have hnil : cs.dropWhile isJsWhiteSpace = [] := List.dropWhile_eq_nil_iff.2 h
    simp [hnil] at hc

theorem jsTrim_eq_empty_iff (input : String) :
    jsTrim input = "" ↔ ∀ c ∈ input.data, isJsWhiteSpace c = true := by
  rw [← jsTrimChars_eq_nil_iff]
  unfold jsTrim
  constructor
  · intro h
    have := congrArg String.data h
    simpa using this
  · intro h
    rw [h]

theorem validate_accepted_iff (input : String) :
    validate input = Validation.accepted ↔ jsTrim input ≠ "" := by
  have hdata : jsTrim input = "" ↔ (jsTrim input).data = [] := by
    constructor
    · intro h
      rw [h]
    · intro h
      cases hj : jsTrim input with
      | mk data =>
        rw [hj] at h
        simp only at h
        rw [h]
  unfold validate truthyString
  rw [Ne, hdata]
  cases (jsTrim input).data <;> simp

theorem validate_rejected (input : String) (h : validate input ≠ Validation.accepted) :
    validate input = Validation.message "❗Template name cannot be empty" := by
  unfold validate at h ⊢
  split
  · rename_i ht
    simp [ht] at h
  · rfl

theorem submitInputs_ok (inputs : List String) (s : Sys) (t : String)
    (h : (submitInputs validate inputs s).result = Except.ok t) :
    validate t = Validation.accepted ∧ t ∈ inputs := by
  induction inputs with
  | nil => simp [submitInputs, halt] at h
  | cons input rest ih =>
    cases hv : validate input with
    | accepted =>
      simp only [submitInputs, hv, ret, Except.ok.injEq] at h
      subst h
      exact ⟨hv, by simp⟩
    | message text =>
      simp only [submitInputs, hv, andThen, emit] at h
      obtain ⟨h1, h2⟩ := ih h
      exact ⟨h1, by simp [h2]⟩

theorem submitInputs_split (rejected : List String) (a : String) (rest : List String) (s : Sys)
    (hrej : ∀ r ∈ rejected, validate r ≠ Validation.accepted)
    (ha : validate a = Validation.accepted) :
    submitInputs validate (rejected ++ a :: rest) s =
      ⟨rejected.map (fun _ => Event.promptRejected "❗Template name cannot be empty"), s,
        Except.ok a⟩ := by
  induction rejected with
  | nil => simp [submitInputs, ha, ret]
  | cons r more ih =>
    have hr := validate_rejected r (hrej r (by simp))
    have ih2 := ih (fun x hx => hrej x (by simp [hx]))
    simp [submitInputs, hr, andThen, emit, ih2]

theorem submitInputs_none (inputs : List String) (s : Sys)
    (hrej : ∀ r ∈ inputs, validate r ≠ Validation.accepted) :
    submitInputs validate inputs s =
      ⟨inputs.map (fun _ => Event.promptRejected "❗Template name cannot be empty"), s,
        Except.error Halt.awaitingInput⟩ := by
  induction inputs with
  | nil => simp [submitInputs, halt]
  | cons r more ih =>
    have hr := validate_rejected r (hrej r (by simp))
    have ih2 := ih (fun x hx => hrej x (by simp [hx]))
    simp [submitInputs, hr, andThen, emit, ih2]

theorem selectTemplate_fixed (w : World) (s : Sys)
    (h : (templates.get w.choice).value ≠ "custom") :
    selectTemplate w s =
      ⟨[Event.prompt "template" "Select a template:"], s,
        Except.ok (templates.get w.choice).value⟩ := by
  have h2 : (templates[(w.choice : Nat)]).value ≠ "custom" := h
  simp [selectTemplate, promptList, bind_def, pure_def, andThen, emit, ret, h2]

theorem selectTemplate_custom (w : World) (s : Sys)
    (h : (templates.get w.choice).value = "custom") :
    selectTemplate w s =
      ⟨Event.prompt "template" "Select a template:" ::
        Event.prompt "customTemplate" "Enter the name of the custom template:" ::
          (submitInputs validate w.customInputs s).events,
        (submitInputs validate w.customInputs s).sys,
        (submitInputs validate w.customInputs s).result⟩ := by
  have h2 : (templates[(w.choice : Nat)]).value = "custom" := h
  cases hr : (submitInputs validate w.customInputs s).result <;>
    simp [selectTemplate, promptList, promptInput, bind_def, pure_def, andThen, emit, ret, h2, hr]

/-- C10: the validation rule of the custom-template prompt returns `true`
exactly for the inputs that are not empty after trimming white space and the
error message for the others; when Custom is chosen the prompt asks again
after every rejected submission, its answer is the first accepted submission,
which is not the empty string, and with only rejected submissions the script
does not get past the prompt; when Typescript or Default JS is chosen the
identifier is `cra-template-universal-ts` or `cra-template-universal`. -/
theorem template_identifier (w : World) (s : Sys) :
    (∀ input : String,
      (validate input = Validation.accepted ↔ jsTrim input ≠ "") ∧
      (jsTrim input ≠ "" ↔ ∃ c ∈ input.data, isJsWhiteSpace c = false) ∧
      (jsTrim input = "" →
        validate input = Validation.message "❗Template name cannot be empty")) ∧
    (w.choice = 0 → (selectTemplate w s).result = Except.ok "cra-template-universal-ts") ∧
    (w.choice = 1 → (selectTemplate w s).result = Except.ok "cra-template-universal") ∧
    (w.choice = 2 →
      (∀ t, (selectTemplate w s).result = Except.ok t →
        t ≠ "" ∧ jsTrim t ≠ "" ∧ t ∈ w.customInputs) ∧
      (∀ rejected accepted rest, w.customInputs = rejected ++ accepted :: rest →
        (∀ r ∈ rejected, jsTrim r = "") → jsTrim accepted ≠ "" →
        (selectTemplate w s).result = Except.ok accepted ∧
        (selectTemplate w s).events =
          Event.prompt "template" "Select a template:" ::
          Event.prompt "customTemplate" "Enter the name of the custom template:" ::
          rejected.map (fun _ => Event.promptRejected "❗Template name cannot be empty")) ∧
      ((∀ r ∈ w.customInputs, jsTrim r = "") →
        (selectTemplate w s).result = Except.error Halt.awaitingInput)) := by
  have hrule : ∀ input : String, jsTrim input = "" → validate input ≠ Validation.accepted :=
    fun input h hv => (validate_accepted_iff input).1 hv h
  refine ⟨fun input => ⟨validate_accepted_iff input, ?_, fun h =>
    validate_rejected input (hrule input h)⟩, ?_, ?_, ?_⟩
  · rw [Ne, jsTrim_eq_empty_iff]
    simp
  · intro h
    rw [selectTemplate_fixed w s (by rw [h]; decide), h]
    rfl
  · intro h
    rw [selectTemplate_fixed w s (by rw [h]; decide), h]
    rfl
  · intro h
    have hc : (templates.get w.choice).value = "custom" := by rw [h]; rfl
    rw [selectTemplate_custom w s hc]
    refine ⟨?_, ?_, ?_⟩
    · intro t ht
      obtain ⟨hv, hmem⟩ := submitInputs_ok w.customInputs s t ht
      have htrim := (validate_accepted_iff t).1 hv
      refine ⟨?_, htrim, hmem⟩
      intro hempty
      rw [hempty] at htrim
      exact htrim (by decide)
    · intro rejected accepted rest hsplit hrej hacc
      rw [hsplit, submitInputs_split rejected accepted rest s (fun r hr => hrule r (hrej r hr))
        ((validate_accepted_iff accepted).2 hacc)]
      exact ⟨rfl, rfl⟩
    · intro hall
      rw [submitInputs_none w.customInputs s (fun r hr => hrule r (hall r hr))]

/-! ## The rename phase -/

theorem pathJoin_pair (a x : String) : pathJoin [a, x] = a ++ "/" ++ x := by
  simp [pathJoin, String.intercalate, String.intercalate.go]

theorem pathJoin_pair_inj (a x y : String) : pathJoin [a, x] = pathJoin [a, y] ↔ x = y := by
  rw [pathJoin_pair, pathJoin_pair]
  constructor
  · intro h
    have := congrArg String.data h
    simp only [String.data_append, List.append_assoc, List.append_cancel_left_eq] at this
    exact String.ext this
  · intro h
    rw [h]

namespace FileSystem

theorem lookup_remove_self (fs : FileSystem) (p : String) : lookup (remove fs p) p = none := by
  induction fs with
  | nil => simp [remove, lookup]
  | cons e rest ih =>
    obtain ⟨p1, c1⟩ := e
    by_cases h : p1 = p
    · simpa [remove, h] using ih
    · simpa [remove, List.filter_cons, h, lookup] using ih

theorem lookup_remove_ne (fs : FileSystem) (p q : String) (h : p ≠ q) :
    lookup (remove fs p) q = lookup fs q := by
  induction fs with
  | nil => simp [remove, lookup]
  | cons e rest ih =>
    obtain ⟨p1, c1⟩ := e
    by_cases h1 : p1 = p
    · subst h1
      simpa [remove, lookup, h] using ih
    · by_cases h2 : p1 = q
      · subst h2
        simp [remove, List.filter_cons, lookup, h1]
      · simpa [remove, List.filter_cons, lookup, h1, h2] using ih

theorem lookup_move_dst (fs : FileSystem) (src dst : String) (node : Node) :
    lookup (move fs src dst node) dst = some node := by
  simp [move, lookup]

theorem lookup_move_src (fs : FileSystem) (src dst : String) (node : Node) (h : src ≠ dst) :
    lookup (move fs src dst node) src = none := by
  simp only [move, lookup, Ne.symm h, if_false]
  rw [lookup_remove_ne _ dst src (Ne.symm h), lookup_remove_self]

theorem lookup_move_other (fs : FileSystem) (src dst : String) (node : Node) (q : String)
    (h1 : q ≠ src) (h2 : q ≠ dst) :
    lookup (move fs src dst node) q = lookup fs q := by
  simp only [move, lookup, Ne.symm h2, if_false]
  rw [lookup_remove_ne _ dst q (Ne.symm h2), lookup_remove_ne _ src q (Ne.symm h1)]

theorem rename_eq_ok (fs : FileSystem) (src dst : String) (renamed : FileSystem)
    (h : rename fs src dst = Except.ok renamed) :
    ∃ node, lookup fs src = some node ∧ renamed = move fs src dst node := by
  unfold rename at h
  split at h
  · simp at h
  · rename_i content hsrc
    split at h
    · simp at h
    · simp only [Except.ok.injEq] at h
      exact ⟨_, hsrc, h.symm⟩
  · rename_i below hsrc
    split at h
    · simp only [Except.ok.injEq] at h
      exact ⟨_, hsrc, h.symm⟩
    · simp at h
    · simp only [Except.ok.injEq] at h
      exact ⟨_, hsrc, h.symm⟩
    · simp at h

theorem afterRename_of_works (fs : FileSystem) (refused : Bool) (src dst : String)
    (h : renameWorks fs refused src dst = true) :
    ∃ node, lookup fs src = some node ∧ afterRename fs refused src dst = move fs src dst node := by
  unfold renameWorks at h
  cases refused with
  | true => simp at h
  | false =>
    cases hr : rename fs src dst with
    | error code => simp [hr] at h
    | ok renamed =>
      obtain ⟨node, hnode, hmove⟩ := rename_eq_ok fs src dst renamed hr
      exact ⟨node, hnode, by simp [afterRename, hr, hmove]⟩

theorem afterRename_of_fails (fs : FileSystem) (refused : Bool) (src dst : String)
    (h : renameWorks fs refused src dst = false) :
    afterRename fs refused src dst = fs := by
  unfold renameWorks at h
  cases refused with
  | true => simp [afterRename]
  | false =>
    cases hr : rename fs src dst with
    | error code => simp [afterRename, hr]
    | ok renamed => simp [hr] at h

theorem lookup_afterRename_other (fs : FileSystem) (refused : Bool) (src dst q : String)
    (h1 : q ≠ src) (h2 : q ≠ dst) :
    lookup (afterRename fs refused src dst) q = lookup fs q := by
  cases hw : renameWorks fs refused src dst with
  | false => rw [afterRename_of_fails fs refused src dst hw]
  | true =>
    obtain ⟨node, _, hmove⟩ := afterRename_of_works fs refused src dst hw
    rw [hmove, lookup_move_other _ _ _ _ _ h1 h2]

theorem renameWorks_iff (fs : FileSystem) (refused : Bool) (src dst : String) :
    renameWorks fs refused src dst = true ↔
      refused = false ∧
      ((∃ content, lookup fs src = some (Node.file content) ∧
          ∀ below, lookup fs dst ≠ some (Node.dir below)) ∨
       (∃ below, lookup fs src = some (Node.dir below) ∧
          (lookup fs dst = none ∨ lookup fs dst = some (Node.dir [])))) := by
  unfold renameWorks rename
  cases refused with
  | true => simp
  | false =>
    cases hsrc : lookup fs src with
    | none => simp
    | some node =>
      cases node with
      | file content =>
        cases hdst : lookup fs dst with
        | none => simp
        | some target =>
          cases target with
          | file other => simp
          | dir below => simp
      | dir below =>
        cases hdst : lookup fs dst with
        | none => simp
        | some target =>
          cases target with
          | file other => simp
          | dir under =>
            cases under with
            | nil => simp
            | cons e rest => simp

theorem renameWorks_congr (fs1 fs2 : FileSystem) (refused : Bool) (src dst : String)
    (hsrc : lookup fs1 src = lookup fs2 src) (hdst : lookup fs1 dst = lookup fs2 dst) :
    renameWorks fs1 refused src dst = renameWorks fs2 refused src dst := by
  rw [Bool.eq_iff_iff, renameWorks_iff, renameWorks_iff, hsrc, hdst]

theorem lookup_placeAt (base : String) (root : Dir) (name : String) :
    lookup (placeAt base root) (pathJoin [base, name]) = lookup root name := by
  induction root with
  | nil => simp [placeAt, lookup]
  | cons e rest ih =>
    obtain ⟨n, node⟩ := e
    simp only [placeAt, List.map_cons, lookup, pathJoin_pair_inj] at ih ⊢
    by_cases h : n = name
    · simp [h]
    · simp [h, ih]

end FileSystem

theorem renameOne_eq (w : World) (appPath templateName file : String) (s : Sys) :
    renameOne w appPath templateName file s =
      ⟨[Event.renameSync (pathJoin [appPath, file]) (pathJoin [appPath, "." ++ file])],
        ⟨s.fs.afterRename (w.renameRefused (pathJoin [appPath, file]))
          (pathJoin [appPath, file]) (pathJoin [appPath, "." ++ file]), s.manifest⟩,
        Except.ok ()⟩ := by
  cases hr : w.renameRefused (pathJoin [appPath, file]) with
  | true =>
    simp [renameOne, renameSync, Script.tryCatch, bind_def, andThen, emit, ret, hr,
      FileSystem.afterRename]
  | false =>
    cases h : s.fs.rename (pathJoin [appPath, file]) (pathJoin [appPath, "." ++ file]) <;>
      simp [renameOne, renameSync, Script.tryCatch, bind_def, andThen, emit, ret, hr, h,
        FileSystem.afterRename]

theorem forEach_rename_outcome (w : World) (appPath templateName : String)
    (names : List String) (s : Sys) :
    (forEach names (renameOne w appPath templateName) s).events =
      names.map (fun file =>
        Event.renameSync (pathJoin [appPath, file]) (pathJoin [appPath, "." ++ file])) ∧
    (forEach names (renameOne w appPath templateName) s).result = Except.ok () ∧
    (forEach names (renameOne w appPath templateName) s).sys.manifest = s.manifest := by
  induction names generalizing s with
  | nil => simp [forEach, ret]
  | cons file rest ih =>
    simp only [forEach, andThen, renameOne_eq, List.map_cons, List.singleton_append]
    obtain ⟨h1, h2, h3⟩ := ih ⟨s.fs.afterRename (w.renameRefused (pathJoin [appPath, file]))
      (pathJoin [appPath, file]) (pathJoin [appPath, "." ++ file]), s.manifest⟩
    simp [h1, h2, h3]

theorem forEach_rename_step (w : World) (appPath templateName file : String)
    (rest : List String) (s : Sys) :
    (forEach (file :: rest) (renameOne w appPath templateName) s).sys =
      (forEach rest (renameOne w appPath templateName)
        ⟨s.fs.afterRename (w.renameRefused (pathJoin [appPath, file]))
          (pathJoin [appPath, file]) (pathJoin [appPath, "." ++ file]), s.manifest⟩).sys := by
  simp only [forEach, andThen, renameOne_eq]

theorem dot_inj (x y : String) : "." ++ x = "." ++ y ↔ x = y := by
  constructor
  · intro h
    have := congrArg String.data h
    simp only [String.data_append, List.append_cancel_left_eq] at this
    exact String.ext this
  · intro h
    rw [h]

theorem renameWorks_after_other (w : World) (appPath file name : String) (fs : FileSystem)
    (hne : name ≠ file) (h1 : "." ++ file ≠ name) (h2 : "." ++ name ≠ file) :
    FileSystem.renameWorks
        (fs.afterRename (w.renameRefused (pathJoin [appPath, file]))
          (pathJoin [appPath, file]) (pathJoin [appPath, "." ++ file]))
        (w.renameRefused (pathJoin [appPath, name]))
        (pathJoin [appPath, name]) (pathJoin [appPath, "." ++ name]) =
      FileSystem.renameWorks fs (w.renameRefused (pathJoin [appPath, name]))
        (pathJoin [appPath, name]) (pathJoin [appPath, "." ++ name]) := by
  apply FileSystem.renameWorks_congr
  · apply FileSystem.lookup_afterRename_other
    · rw [Ne, pathJoin_pair_inj]
      exact hne
    · rw [Ne, pathJoin_pair_inj]
      exact fun h => h1 h.symm
  · apply FileSystem.lookup_afterRename_other
    · rw [Ne, pathJoin_pair_inj]
      exact h2
    · rw [Ne, pathJoin_pair_inj, dot_inj]
      exact hne

theorem forEach_rename_frame (w : World) (appPath templateName : String) (names : List String)
    (hnd : names.Nodup) (hdot : ∀ n ∈ names, ∀ m ∈ names, "." ++ n ≠ m) (s : Sys) (p : String)
    (hp : ∀ n ∈ names,
      FileSystem.renameWorks s.fs (w.renameRefused (pathJoin [appPath, n]))
        (pathJoin [appPath, n]) (pathJoin [appPath, "." ++ n]) = true →
      p ≠ pathJoin [appPath, n] ∧ p ≠ pathJoin [appPath, "." ++ n]) :
    (forEach names (renameOne w appPath templateName) s).sys.fs.lookup p = s.fs.lookup p := by
  induction names generalizing s with
  | nil => simp [forEach, ret]
  | cons file rest ih =>
    rw [forEach_rename_step]
    have hnd2 : rest.Nodup := (List.nodup_cons.1 hnd).2
    have hnotin : file ∉ rest := (List.nodup_cons.1 hnd).1
    have hdot2 : ∀ n ∈ rest, ∀ m ∈ rest, "." ++ n ≠ m :=
      fun n hn m hm => hdot n (by simp [hn]) m (by simp [hm])
    cases hw : FileSystem.renameWorks s.fs (w.renameRefused (pathJoin [appPath, file]))
        (pathJoin [appPath, file]) (pathJoin [appPath, "." ++ file]) with
    | false =>
      rw [FileSystem.afterRename_of_fails _ _ _ _ hw]
      exact ih hnd2 hdot2 s (fun n hn => hp n (by simp [hn]))
    | true =>
      have hpf := hp file (by simp) hw
      rw [ih hnd2 hdot2 _ ?_]
      · exact FileSystem.lookup_afterRename_other _ _ _ _ _ hpf.1 hpf.2
      · intro n hn hworks
        have hne : n ≠ file := fun heq => hnotin (heq ▸ hn)
        rw [renameWorks_after_other w appPath file n s.fs hne
          (hdot file (by simp) n (by simp [hn])) (hdot n (by simp [hn]) file (by simp))]
          at hworks
        exact hp n (by simp [hn]) hworks

theorem forEach_rename_moved (w : World) (appPath templateName : String) (names : List String)
    (hnd : names.Nodup) (hdot : ∀ n ∈ names, ∀ m ∈ names, "." ++ n ≠ m) (s : Sys)
    (name : String) (hname : name ∈ names) (node : Node)
    (hnode : s.fs.lookup (pathJoin [appPath, name]) = some node)
    (hworks : FileSystem.renameWorks s.fs (w.renameRefused (pathJoin [appPath, name]))
      (pathJoin [appPath, name]) (pathJoin [appPath, "." ++ name]) = true) :
    (forEach names (renameOne w appPath templateName) s).sys.fs.lookup
        (pathJoin [appPath, "." ++ name]) = some node ∧
    (forEach names (renameOne w appPath templateName) s).sys.fs.lookup
        (pathJoin [appPath, name]) = none := by
  induction names generalizing s with
  | nil => simp at hname
  | cons file rest ih =>
    have hnd2 : rest.Nodup := (List.nodup_cons.1 hnd).2
    have hnotin : file ∉ rest := (List.nodup_cons.1 hnd).1
    have hdot2 : ∀ n ∈ rest, ∀ m ∈ rest, "." ++ n ≠ m :=
      fun n hn m hm => hdot n (by simp [hn]) m (by simp [hm])
    rw [forEach_rename_step]
    by_cases hfile : name = file
    · subst hfile
      obtain ⟨moved, hmoved, hafter⟩ := FileSystem.afterRename_of_works _ _ _ _ hworks
      rw [hnode] at hmoved
      simp only [Option.some.injEq] at hmoved
      subst hmoved
      rw [hafter]
      have hself : pathJoin [appPath, name] ≠ pathJoin [appPath, "." ++ name] := by
        rw [Ne, pathJoin_pair_inj]
        intro heq
        exact hdot name (by simp) name (by simp) heq.symm
      constructor
      · rw [forEach_rename_frame w appPath templateName rest hnd2 hdot2 _ _ ?_]
        · exact FileSystem.lookup_move_dst _ _ _ _
        · intro n hn _
          constructor
          · rw [Ne, pathJoin_pair_inj]
            intro heq
            exact hdot name (by simp) n (by simp [hn]) heq
          · rw [Ne, pathJoin_pair_inj, dot_inj]
            intro heq
            exact hnotin (heq ▸ hn)
      · rw [forEach_rename_frame w appPath templateName rest hnd2 hdot2 _ _ ?_]
        · exact FileSystem.lookup_move_src _ _ _ _ hself
        · intro n hn _
          constructor
          · rw [Ne, pathJoin_pair_inj]
            intro heq
            exact hnotin (heq ▸ hn)
          · rw [Ne, pathJoin_pair_inj]
            intro heq
            exact hdot n (by simp [hn]) name (by simp) heq.symm
    · have hrest : name ∈ rest := by
        cases List.mem_cons.1 hname with
        | inl h => exact absurd h hfile
        | inr h => exact h
      have hne1 : pathJoin [appPath, name] ≠ pathJoin [appPath, file] := by
        rw [Ne, pathJoin_pair_inj]
        exact hfile
      have hne2 : pathJoin [appPath, name] ≠ pathJoin [appPath, "." ++ file] := by
        rw [Ne, pathJoin_pair_inj]
        intro heq
        exact hdot file (by simp) name hname heq.symm
      apply ih hnd2 hdot2 _ hrest
      · show FileSystem.lookup _ _ = _
        rw [FileSystem.lookup_afterRename_other _ _ _ _ _ hne1 hne2]
        exact hnode
      · show FileSystem.renameWorks _ _ _ _ = _
        rw [renameWorks_after_other w appPath file name s.fs hfile
          (hdot file (by simp) name hname) (hdot name hname file (by simp))]
        exact hworks

theorem filesToRename_nodup : filesToRename.Nodup := by
  decide

theorem filesToRename_dot : ∀ n ∈ filesToRename, ∀ m ∈ filesToRename, "." ++ n ≠ m := by
  decide

/-- C8, amended: from every target directory the copy can leave, given by the
entries of its root, the rename phase calls `renameSync` for exactly the four
names `gitignore`, `eslintrc`, `prettierrc` and `prettierignore`, in this
order, each to the name with a leading dot, and ends normally.  Each of the
four that is present and whose rename goes through ends up under its dotted
name as it was, a file with its content or a directory with everything below
it, and is gone under its old name.  A rename goes through exactly when the
system does not refuse it and either the entry is a file and its dotted name
is not a directory, or the entry is a directory and its dotted name is absent
or an empty directory.  Every path that is neither one of the four whose
rename goes through nor its dotted name keeps what it had; so do the names
whose rename fails. -/
theorem dotfiles_renamed (w : World) (appPath templateName : String) (root : Dir)
    (manifest : Option Manifest) (hroot : ∀ e ∈ root, simpleName e.1 = true) :
    (renameDotfiles w appPath templateName ⟨FileSystem.placeAt appPath root, manifest⟩).events =
      [Event.renameSync (pathJoin [appPath, "gitignore"]) (pathJoin [appPath, ".gitignore"]),
       Event.renameSync (pathJoin [appPath, "eslintrc"]) (pathJoin [appPath, ".eslintrc"]),
       Event.renameSync (pathJoin [appPath, "prettierrc"]) (pathJoin [appPath, ".prettierrc"]),
       Event.renameSync (pathJoin [appPath, "prettierignore"])
         (pathJoin [appPath, ".prettierignore"])] ∧
    (renameDotfiles w appPath templateName ⟨FileSystem.placeAt appPath root, manifest⟩).result =
      Except.ok () ∧
    (∀ name ∈ filesToRename, ∀ node,
      FileSystem.lookup root name = some node →
      FileSystem.renameWorks (FileSystem.placeAt appPath root)
        (w.renameRefused (pathJoin [appPath, name]))
        (pathJoin [appPath, name]) (pathJoin [appPath, "." ++ name]) = true →
      (renameDotfiles w appPath templateName
        ⟨FileSystem.placeAt appPath root, manifest⟩).sys.fs.lookup
          (pathJoin [appPath, "." ++ name]) = some node ∧
      (renameDotfiles w appPath templateName
        ⟨FileSystem.placeAt appPath root, manifest⟩).sys.fs.lookup
          (pathJoin [appPath, name]) = none) ∧
    (∀ name,
      FileSystem.renameWorks (FileSystem.placeAt appPath root)
        (w.renameRefused (pathJoin [appPath, name]))
        (pathJoin [appPath, name]) (pathJoin [appPath, "." ++ name]) = true ↔
      w.renameRefused (pathJoin [appPath, name]) = false ∧
      ((∃ content, FileSystem.lookup root name = some (Node.file content) ∧
          ∀ below, FileSystem.lookup root ("." ++ name) ≠ some (Node.dir below)) ∨
       (∃ below, FileSystem.lookup root name = some (Node.dir below) ∧
          (FileSystem.lookup root ("." ++ name) = none ∨
           FileSystem.lookup root ("." ++ name) = some (Node.dir []))))) ∧
    (∀ path : String,
      (∀ name ∈ filesToRename,
        FileSystem.renameWorks (FileSystem.placeAt appPath root)
          (w.renameRefused (pathJoin [appPath, name]))
          (pathJoin [appPath, name]) (pathJoin [appPath, "." ++ name]) = true →
        path ≠ pathJoin [appPath, name] ∧ path ≠ pathJoin [appPath, "." ++ name]) →
      (renameDotfiles w appPath templateName
        ⟨FileSystem.placeAt appPath root, manifest⟩).sys.fs.lookup path =
        FileSystem.lookup (FileSystem.placeAt appPath root) path) ∧
    (∀ name ∈ filesToRename,
      FileSystem.renameWorks (FileSystem.placeAt appPath root)
        (w.renameRefused (pathJoin [appPath, name]))
        (pathJoin [appPath, name]) (pathJoin [appPath, "." ++ name]) = false →
      (renameDotfiles w appPath templateName
        ⟨FileSystem.placeAt appPath root, manifest⟩).sys.fs.lookup
          (pathJoin [appPath, name]) = FileSystem.lookup root name) := by
  have _ := hroot
  refine ⟨?_, (forEach_rename_outcome w appPath templateName filesToRename _).2.1, ?_, ?_, ?_,
    ?_⟩
  · rw [renameDotfiles, (forEach_rename_outcome w appPath templateName filesToRename _).1]
    rfl
  · intro name hname node hnode hworks
    exact forEach_rename_moved w appPath templateName filesToRename filesToRename_nodup
      filesToRename_dot _ name hname node
      (by rw [← hnode]; exact FileSystem.lookup_placeAt appPath root name) hworks
  · intro name
    rw [FileSystem.renameWorks_iff, FileSystem.lookup_placeAt, FileSystem.lookup_placeAt]
  · intro path hpath
    exact forEach_rename_frame w appPath templateName filesToRename filesToRename_nodup
      filesToRename_dot _ path hpath
  · intro name hname hfails
    rw [← FileSystem.lookup_placeAt appPath root name]
    apply forEach_rename_frame w appPath templateName filesToRename filesToRename_nodup
      filesToRename_dot
    intro n hn hworks
    constructor
    · rw [Ne, pathJoin_pair_inj]
      intro heq
      rw [← heq, hfails] at hworks
      exact absurd hworks (by simp)
    · rw [Ne, pathJoin_pair_inj]
      intro heq
      exact filesToRename_dot n hn name hname heq.symm

/-! ## The run as a whole -/

theorem selectTemplate_events_head (w : World) (s : Sys) :
    ∃ rest, (selectTemplate w s).events = Event.prompt "template" "Select a template:" :: rest := by
  by_cases h : (templates.get w.choice).value = "custom"
  · rw [selectTemplate_custom w s h]
    exact ⟨_, rfl⟩
  · rw [selectTemplate_fixed w s h]
    exact ⟨_, rfl⟩

theorem run_of_target_exists (w : World) (h : w.targetExists = true) :
    run w =
      ⟨[Event.consoleLog ("🚀 Creating proyect in: " ++ appPathOf w),
        Event.consoleError "⚠️ This directory already exists. Use another name."],
        Sys.initial, Except.error (Halt.exit 1)⟩ := by
  simp [run, script, bind_def, pure_def, andThen, consoleLog, consoleError, emit, processExit,
    halt, h, chalk]

theorem run_of_target_fresh (w : World) (h : w.targetExists = false) :
    run w =
      ⟨Event.consoleLog ("🚀 Creating proyect in: " ++ appPathOf w) ::
        (andThen (selectTemplate w) (scaffold w) Sys.initial).events,
        (andThen (selectTemplate w) (scaffold w) Sys.initial).sys,
        (andThen (selectTemplate w) (scaffold w) Sys.initial).result⟩ := by
  simp only [run, script, bind_def, pure_def, consoleLog, chalk, h]
  simp only [andThen, emit, ret, Bool.false_eq_true, if_false, List.nil_append, List.singleton_append]

/-- C3: when the target path exists at the start, the script prints two
messages and ends with `process.exit(1)`: no prompt is shown, nothing on the
file system is changed and no command is run; when the target path does not
exist the first prompt is shown right after the first message, so nothing
else ends the script before the prompts. -/
theorem existing_target_aborts (w : World) :
    (w.targetExists = true →
      (run w).result = Except.error (Halt.exit 1) ∧
      exitCode (run w).result = some 1 ∧
      (run w).events =
        [Event.consoleLog ("🚀 Creating proyect in: " ++ appPathOf w),
         Event.consoleError "⚠️ This directory already exists. Use another name."] ∧
      (∀ e ∈ (run w).events,
        e.isPrompt = false ∧ e.isFsMutation = false ∧ e.isExec = false) ∧
      (run w).sys.manifest = none) ∧
    (w.targetExists = false →
      ∃ rest, (run w).events =
        Event.consoleLog ("🚀 Creating proyect in: " ++ appPathOf w) ::
        Event.prompt "template" "Select a template:" :: rest) := by
  constructor
  · intro h
    rw [run_of_target_exists w h]
    simp [exitCode, Sys.initial, Event.isPrompt, Event.isFsMutation, Event.isExec]
  · intro h
    rw [run_of_target_fresh w h]
    obtain ⟨rest, hrest⟩ := selectTemplate_events_head w Sys.initial
    cases hr : (selectTemplate w Sys.initial).result with
    | error e => exact ⟨rest, by simp [andThen, hr, hrest]⟩
    | ok t => exact ⟨rest ++ (scaffold w t (selectTemplate w Sys.initial).sys).events, by
        simp [andThen, hr, hrest]⟩

theorem submitInputs_events (inputs : List String) (s : Sys) :
    ∀ e ∈ (submitInputs validate inputs s).events, e.isPrompt = true := by
  induction inputs with
  | nil => simp [submitInputs, halt]
  | cons input rest ih =>
    cases hv : validate input with
    | accepted => simp [submitInputs, hv, ret]
    | message text =>
      intro e he
      simp only [submitInputs, hv, andThen, emit] at he
      simp only [List.singleton_append, List.mem_cons] at he
      cases he with
      | inl h => rw [h]; rfl
      | inr h => exact ih e h

theorem submitInputs_sys (inputs : List String) (s : Sys) :
    (submitInputs validate inputs s).sys = s := by
  induction inputs with
  | nil => simp [submitInputs, halt]
  | cons input rest ih =>
    cases hv : validate input with
    | accepted => simp [submitInputs, hv, ret]
    | message text =>
      simp only [submitInputs, hv, andThen, emit]
      exact ih

theorem selectTemplate_events (w : World) (s : Sys) :
    ∀ e ∈ (selectTemplate w s).events, e.isPrompt = true := by
  intro e he
  by_cases h : (templates.get w.choice).value = "custom"
  · rw [selectTemplate_custom w s h] at he
    simp only [List.mem_cons] at he
    rcases he with h1 | h1 | h1
    · rw [h1]; rfl
    · rw [h1]; rfl
    · exact submitInputs_events _ _ e h1
  · rw [selectTemplate_fixed w s h] at he
    simp only [List.mem_singleton] at he
    rw [he]; rfl

theorem selectTemplate_sys (w : World) (s : Sys) : (selectTemplate w s).sys = s := by
  by_cases h : (templates.get w.choice).value = "custom"
  · rw [selectTemplate_custom w s h]
    exact submitInputs_sys _ _
  · rw [selectTemplate_fixed w s h]

theorem execSync_eq (command : String) (fails : Bool) (s : Sys) :
    execSync command fails s =
      ⟨[Event.execSync command], s,
        if fails then Except.error (Halt.thrown ("Error: Command failed: " ++ command))
        else Except.ok ()⟩ := by
  cases fails <;> simp [execSync, bind_def, pure_def, andThen, emit, halt, ret]

theorem detectYarn_eq (w : World) (s : Sys) :
    detectYarn w s = ⟨[Event.execSync "yarn --version"], s, Except.ok (!w.yarnMissing)⟩ := by
  cases h : w.yarnMissing <;>
    simp [detectYarn, Script.tryCatch, bind_def, pure_def, andThen, execSync_eq, ret, h]

theorem installTemplate_failed (w : World) (cmd : List String) (templateName : String) (s : Sys)
    (hinit : w.npmInitFails = false) (hinstall : w.templateInstallFails = true) :
    installTemplate w cmd templateName s =
      ⟨[Event.execSync "npm init -y", Event.execSync (joinSpace cmd ++ " " ++ templateName),
        Event.consoleError ("❌ Error installing template " ++ templateName ++ ": " ++ " " ++
          ("Error: Command failed: " ++ (joinSpace cmd ++ " " ++ templateName)))],
        s, Except.error (Halt.exit 1)⟩ := by
  simp [installTemplate, Script.tryCatch, bind_def, andThen, execSync_eq, hinit, hinstall,
    consoleError, processExit, emit, halt, chalk]

theorem scaffold_install_failed (w : World) (templateName : String) (s : Sys)
    (hmkdir : w.mkdirFails = false)
    (hinit : w.npmInitFails = false) (hinstall : w.templateInstallFails = true) :
    scaffold w templateName s =
      ⟨[Event.consoleLog ("📦 Using template: " ++ templateName),
        Event.mkdirSync (appPathOf w),
        Event.consoleLog "📥 Installing template...",
        Event.execSync "yarn --version",
        Event.execSync "npm init -y",
        Event.execSync (joinSpace (cmdOf (!w.yarnMissing)) ++ " " ++ templateName),
        Event.consoleError ("❌ Error installing template " ++ templateName ++ ": " ++ " " ++
          ("Error: Command failed: " ++
            (joinSpace (cmdOf (!w.yarnMissing)) ++ " " ++ templateName)))],
        s, Except.error (Halt.exit 1)⟩ := by
  simp [scaffold, bind_def, pure_def, andThen, consoleLog, mkdirSync, emit, ret, hmkdir, chalk,
    detectYarn_eq, installTemplate_failed w _ templateName _ hinit hinstall]

theorem run_of_selected (w : World) (templateName : String)
    (hfresh : w.targetExists = false)
    (hsel : (selectTemplate w Sys.initial).result = Except.ok templateName) :
    run w =
      ⟨Event.consoleLog ("🚀 Creating proyect in: " ++ appPathOf w) ::
        ((selectTemplate w Sys.initial).events ++ (scaffold w templateName Sys.initial).events),
        (scaffold w templateName Sys.initial).sys,
        (scaffold w templateName Sys.initial).result⟩ := by
  rw [run_of_target_fresh w hfresh]
  simp [andThen, hsel, selectTemplate_sys]

theorem execCommands_append (xs ys : List Event) :
    execCommands (xs ++ ys) = execCommands xs ++ execCommands ys := by
  simp [execCommands, List.filterMap_append]

theorem execCommands_of_prompts (events : List Event)
    (h : ∀ e ∈ events, e.isPrompt = true) : execCommands events = [] := by
  induction events with
  | nil => rfl
  | cons e rest ih =>
    have he := h e (by simp)
    have hrest := ih (fun x hx => h x (by simp [hx]))
    cases e <;> simp_all [execCommands, Event.isPrompt]

theorem installCommand_ne (shouldUseYarn : Bool) (templateName : String) :
    joinSpace (cmdOf shouldUseYarn) ++ " " ++ templateName ≠ "yarn --version" ∧
    joinSpace (cmdOf shouldUseYarn) ++ " " ++ templateName ≠ "npm init -y" := by
  have hy : joinSpace (cmdOf true) = "yarn add" := by decide
  have hn : joinSpace (cmdOf false) = "npm install --save" := by decide
  cases shouldUseYarn
  · rw [hn]
    constructor <;>
    · intro h
      have := congrArg String.data h
      simp [String.data_append] at this
  · rw [hy]
    constructor <;>
    · intro h
      have := congrArg String.data h
      simp [String.data_append] at this

/-- C4: when the command that installs the template package fails, that
command has been issued once, the process ends with `process.exit(1)`, the
only commands issued are the yarn probe, `npm init -y` and that install, and
the only change to the file system is the creation of the target directory:
nothing is copied, renamed or written and nothing is removed. -/
theorem template_install_failure (w : World) (templateName : String)
    (hfresh : w.targetExists = false)
    (hsel : (selectTemplate w Sys.initial).result = Except.ok templateName)
    (hmkdir : w.mkdirFails = false)
    (hinit : w.npmInitFails = false)
    (hinstall : w.templateInstallFails = true) :
    (run w).result = Except.error (Halt.exit 1) ∧
    exitCode (run w).result = some 1 ∧
    execCommands (run w).events =
      ["yarn --version", "npm init -y",
        joinSpace (cmdOf (!w.yarnMissing)) ++ " " ++ templateName] ∧
    (execCommands (run w).events).count
      (joinSpace (cmdOf (!w.yarnMissing)) ++ " " ++ templateName) = 1 ∧
    (∀ e ∈ (run w).events, e.isFsMutation = true → e = Event.mkdirSync (appPathOf w)) ∧
    Event.mkdirSync (appPathOf w) ∈ (run w).events ∧
    (run w).sys.manifest = none := by
  have hexec : execCommands (run w).events =
      ["yarn --version", "npm init -y",
        joinSpace (cmdOf (!w.yarnMissing)) ++ " " ++ templateName] := by
    rw [run_of_selected w templateName hfresh hsel,
      scaffold_install_failed w templateName _ hmkdir hinit hinstall]
    simp only [← List.singleton_append (l := _ ++ _), execCommands_append,
      execCommands_of_prompts _ (selectTemplate_events w Sys.initial)]
    simp [execCommands]
  obtain ⟨hne1, hne2⟩ := installCommand_ne (!w.yarnMissing) templateName
  refine ⟨?_, ?_, hexec, ?_, ?_, ?_, ?_⟩
  · rw [run_of_selected w templateName hfresh hsel,
      scaffold_install_failed w templateName _ hmkdir hinit hinstall]
  · rw [run_of_selected w templateName hfresh hsel,
      scaffold_install_failed w templateName _ hmkdir hinit hinstall]
    rfl
  · rw [hexec]
    simp [List.count_cons, hne1.symm, hne2.symm]
  · intro e he hmut
    rw [run_of_selected w templateName hfresh hsel,
      scaffold_install_failed w templateName _ hmkdir hinit hinstall] at he
    simp only [List.mem_cons, List.mem_append, List.mem_singleton, List.not_mem_nil,
      or_false] at he
    rcases he with h | h | h | h | h | h | h | h | h
    · rw [h] at hmut; simp [Event.isFsMutation] at hmut
    · have := selectTemplate_events w Sys.initial e h
      cases e <;> simp_all [Event.isFsMutation, Event.isPrompt]
    · rw [h] at hmut; simp [Event.isFsMutation] at hmut
    · exact h
    · rw [h] at hmut; simp [Event.isFsMutation] at hmut
    · rw [h] at hmut; simp [Event.isFsMutation] at hmut
    · rw [h] at hmut; simp [Event.isFsMutation] at hmut
    · rw [h] at hmut; simp [Event.isFsMutation] at hmut
    · rw [h] at hmut; simp [Event.isFsMutation] at hmut
  · rw [run_of_selected w templateName hfresh hsel,
      scaffold_install_failed w templateName _ hmkdir hinit hinstall]
    simp
  · rw [run_of_selected w templateName hfresh hsel,
      scaffold_install_failed w templateName _ hmkdir hinit hinstall]
    rfl

/-! ## The phases after the template install -/

theorem mkdirSync_eq (path : String) (fails : Bool) (s : Sys) :
    mkdirSync path fails s =
      ⟨[Event.mkdirSync path], s,
        if fails then Except.error (Halt.thrown ("Error: mkdir " ++ path)) else Except.ok ()⟩ := by
  cases fails <;> simp [mkdirSync, bind_def, pure_def, andThen, emit, halt, ret]

theorem renameDotfiles_result (w : World) (appPath templateName : String) (s : Sys) :
    (renameDotfiles w appPath templateName s).result = Except.ok () :=
  (forEach_rename_outcome w appPath templateName filesToRename s).2.1

theorem renameDotfiles_manifest (w : World) (appPath templateName : String) (s : Sys) :
    (renameDotfiles w appPath templateName s).sys.manifest = s.manifest :=
  (forEach_rename_outcome w appPath templateName filesToRename s).2.2

theorem renameDotfiles_events (w : World) (appPath templateName : String) (s : Sys) :
    (renameDotfiles w appPath templateName s).events =
      filesToRename.map (fun file =>
        Event.renameSync (pathJoin [appPath, file]) (pathJoin [appPath, "." ++ file])) :=
  (forEach_rename_outcome w appPath templateName filesToRename s).1

theorem toInstallDeps_length (templatePackage : TemplatePackage) :
    (toInstallDeps templatePackage).length ≠ 0 := by
  intro h
  have hnil : toInstallDeps templatePackage = [] := List.length_eq_zero.1 h
  have hperm := JsObject.ownEntries_perm
    (JsObject.setProp (JsObject.spreadInto [] templatePackage.dependencies)
      "universal-scripts" "latest")
  rw [toInstallDeps] at hnil
  rw [hnil] at hperm
  have hempty := List.Perm.nil_eq hperm
  have hget := JsObject.getProp_setProp_self
    (JsObject.spreadInto [] templatePackage.dependencies) "universal-scripts" "latest"
  rw [← hempty] at hget
  simp [JsObject.getProp] at hget

theorem toInstallDeps_ne_nil (templatePackage : TemplatePackage) :
    toInstallDeps templatePackage ≠ [] := by
  intro h
  exact toInstallDeps_length templatePackage (by simp [h])

theorem copySync_eq (src dst : String) (result : Option Dir) (s : Sys) :
    copySync src dst result s =
      ⟨[Event.copySync src dst],
        (match result with
          | none => s
          | some root => ⟨FileSystem.placeAt dst root, s.manifest⟩),
        (match result with
          | none => Except.error (Halt.thrown ("Error: copy " ++ src))
          | some _ => Except.ok ())⟩ := by
  cases result <;> simp [copySync, bind_def, andThen, emit, halt, update]

theorem writeFileSync_eq (path : String) (content : Manifest) (fails : Bool) (s : Sys) :
    writeFileSync path content fails s =
      ⟨[Event.writeFileSync path content],
        if fails then s else ⟨s.fs, some content⟩,
        if fails then Except.error (Halt.thrown ("Error: write " ++ path)) else Except.ok ()⟩ := by
  cases fails <;> simp [writeFileSync, bind_def, pure_def, andThen, emit, halt, update, ret]

theorem installTemplate_ok (w : World) (cmd : List String) (templateName : String) (s : Sys)
    (hinit : w.npmInitFails = false) (hinstall : w.templateInstallFails = false) :
    installTemplate w cmd templateName s =
      ⟨[Event.execSync "npm init -y", Event.execSync (joinSpace cmd ++ " " ++ templateName)],
        s, Except.ok ()⟩ := by
  simp [installTemplate, Script.tryCatch, bind_def, andThen, execSync_eq, hinit, hinstall]

theorem installTemplate_result (w : World) (cmd : List String) (templateName : String) (s : Sys)
    (hok : (installTemplate w cmd templateName s).result = Except.ok ()) :
    w.npmInitFails = false ∧ w.templateInstallFails = false := by
  cases hinit : w.npmInitFails <;> cases hinstall : w.templateInstallFails <;>
    simp [installTemplate, Script.tryCatch, bind_def, andThen, execSync_eq, hinit, hinstall,
      consoleError, processExit, emit, halt] at hok ⊢

theorem mergeStep_eq (w : World) (appPath templateName : String) (s : Sys)
    (templateInfo : TemplateInfo) (members : List (String × Json))
    (hti : w.templateJson = some templateInfo) (hpj : w.packageJson = some members)
    (hwrite : w.writeFails = false) :
    mergeStep w appPath templateName s =
      ⟨[Event.writeFileSync (pathJoin [appPath, "package.json"])
          (mergeManifest (JsObject.ofMembers members) (templatePackageOf templateInfo))],
        ⟨s.fs, some (mergeManifest (JsObject.ofMembers members) (templatePackageOf templateInfo))⟩,
        Except.ok templateInfo⟩ := by
  simp [mergeStep, hti, hpj, hwrite, requireJson, writeFileSync_eq, bind_def, pure_def, andThen,
    ret]

theorem mergeStep_result (w : World) (appPath templateName : String) (s : Sys)
    (templateInfo : TemplateInfo)
    (hok : (mergeStep w appPath templateName s).result = Except.ok templateInfo) :
    w.templateJson = some templateInfo ∧ (∃ members, w.packageJson = some members) ∧
      w.writeFails = false := by
  cases hti : w.templateJson <;> cases hpj : w.packageJson <;> cases hwrite : w.writeFails <;>
    simp [mergeStep, hti, hpj, hwrite, requireJson, writeFileSync_eq, bind_def, pure_def,
      andThen, ret, halt] at hok ⊢
  exact hok

/-- The events of lines 164-175 when the dev-dependency install does not fail. -/
theorem installDependencies_eq (w : World) (cmd cmdDev cmdRemove : List String)
    (templateName : String) (templateInfo : TemplateInfo) (s : Sys)
    (devDependencies : JsObject String)
    (hdev : (templatePackageOf templateInfo).devDependencies = some devDependencies)
    (hdeps : w.depsInstallFails = false)
    (hdevok : (JsObject.ownEntries devDependencies).length ≠ 0 → w.devDepsInstallFails = false)
    (hremove : w.removeFails = false) :
    installDependencies w cmd cmdDev cmdRemove templateName templateInfo s =
      ⟨[Event.consoleLog "📥 Installing dependencies...",
        Event.execSync
          (joinSpace (cmd ++ (toInstallDeps (templatePackageOf templateInfo)).map depToken))] ++
        (if (JsObject.ownEntries devDependencies).length ≠ 0 then
          [Event.consoleLog "📥 Installing dev dependencies...",
           Event.execSync
            (joinSpace (cmdDev ++ (JsObject.ownEntries devDependencies).map depToken))]
        else
          [Event.consoleLog "🔹 Template has no dev dependencies; skipping install...",
           Event.consoleLogInfo templateInfo]) ++
        [Event.consoleLog "🧹 Removing template dependency...",
         Event.execSync (joinSpace cmdRemove ++ " " ++ templateName)],
        ⟨s.fs, (((s.manifest.map
          (w.installEffect
            (joinSpace (cmd ++ (toInstallDeps (templatePackageOf templateInfo)).map depToken)))).map
          (if (JsObject.ownEntries devDependencies).length ≠ 0 then
            w.installEffect
              (joinSpace (cmdDev ++ (JsObject.ownEntries devDependencies).map depToken))
          else id)).map (removeDependency templateName))⟩,
        Except.ok ()⟩ := by
  have hne := toInstallDeps_ne_nil (templatePackageOf templateInfo)
  by_cases hlen : JsObject.ownEntries devDependencies = []
  · simp [installDependencies, hdev, objectEntries, bind_def, pure_def, andThen, ret,
      hne, consoleLog, emit, execSync_eq, hdeps, hremove, updateManifest,
      update, hlen]
  · have hd := hdevok (by simpa using hlen)
    simp [installDependencies, hdev, objectEntries, bind_def, pure_def, andThen, ret,
      hne, consoleLog, emit, execSync_eq, hdeps, hd, hremove, updateManifest,
      update, hlen]

theorem installDependencies_result (w : World) (cmd cmdDev cmdRemove : List String)
    (templateName : String) (templateInfo : TemplateInfo) (s : Sys)
    (hok : (installDependencies w cmd cmdDev cmdRemove templateName templateInfo s).result =
      Except.ok ()) :
    ∃ devDependencies,
      (templatePackageOf templateInfo).devDependencies = some devDependencies ∧
      w.depsInstallFails = false ∧
      ((JsObject.ownEntries devDependencies).length ≠ 0 → w.devDepsInstallFails = false) ∧
      w.removeFails = false := by
  cases hdev : (templatePackageOf templateInfo).devDependencies with
  | none =>
    simp [installDependencies, hdev, objectEntries, bind_def, andThen, halt] at hok
  | some devDependencies =>
    refine ⟨devDependencies, rfl, ?_⟩
    have hne := toInstallDeps_ne_nil (templatePackageOf templateInfo)
    cases hdeps : w.depsInstallFails
    case true =>
      simp [installDependencies, hdev, objectEntries, bind_def, pure_def, andThen, ret,
        hne, consoleLog, emit, execSync_eq, hdeps] at hok
    by_cases hlen : JsObject.ownEntries devDependencies = []
    · cases hremove : w.removeFails with
      | true =>
        simp [installDependencies, hdev, objectEntries, bind_def, pure_def, andThen, ret,
          hne, consoleLog, emit, execSync_eq, hdeps, hremove,
          updateManifest, update, hlen] at hok
      | false => simp [hlen]
    · cases hd : w.devDepsInstallFails with
      | true =>
        simp [installDependencies, hdev, objectEntries, bind_def, pure_def, andThen, ret,
          hne, consoleLog, emit, execSync_eq, hdeps, hd, updateManifest,
          update, hlen] at hok
      | false =>
        cases hremove : w.removeFails with
        | true =>
          simp [installDependencies, hdev, objectEntries, bind_def, pure_def, andThen, ret,
            hne, consoleLog, emit, execSync_eq, hdeps, hd, hremove,
            updateManifest, update, hlen] at hok
        | false => simp


theorem andThen_result_ok {α β : Type} (m : Script α) (f : α → Script β) (s : Sys) (b : β)
    (h : (andThen m f s).result = Except.ok b) :
    ∃ a, (m s).result = Except.ok a ∧ (f a (m s).sys).result = Except.ok b := by
  cases hm : (m s).result with
  | error e => simp [andThen, hm] at h
  | ok a =>
    refine ⟨a, rfl, ?_⟩
    simpa [andThen, hm] using h

theorem scaffold_facts (w : World) (templateName : String) (s : Sys)
    (hok : (scaffold w templateName s).result = Except.ok ()) :
    ∃ copied templateInfo members devDependencies,
      w.mkdirFails = false ∧ w.npmInitFails = false ∧ w.templateInstallFails = false ∧
      w.copied = some copied ∧ w.templateJson = some templateInfo ∧
      w.packageJson = some members ∧ w.writeFails = false ∧
      (templatePackageOf templateInfo).devDependencies = some devDependencies ∧
      w.depsInstallFails = false ∧
      ((JsObject.ownEntries devDependencies).length ≠ 0 → w.devDepsInstallFails = false) ∧
      w.removeFails = false := by
  simp only [scaffold, bind_def] at hok
  obtain ⟨_, -, hok⟩ := andThen_result_ok _ _ _ _ hok
  obtain ⟨_, hmk, hok⟩ := andThen_result_ok _ _ _ _ hok
  obtain ⟨_, -, hok⟩ := andThen_result_ok _ _ _ _ hok
  obtain ⟨y, -, hok⟩ := andThen_result_ok _ _ _ _ hok
  obtain ⟨_, hinst, hok⟩ := andThen_result_ok _ _ _ _ hok
  obtain ⟨_, -, hok⟩ := andThen_result_ok _ _ _ _ hok
  obtain ⟨_, hcopy, hok⟩ := andThen_result_ok _ _ _ _ hok
  obtain ⟨_, -, hok⟩ := andThen_result_ok _ _ _ _ hok
  obtain ⟨templateInfo, hmerge, hok⟩ := andThen_result_ok _ _ _ _ hok
  obtain ⟨_, hdeps, hok⟩ := andThen_result_ok _ _ _ _ hok
  obtain ⟨hinit, hinstall⟩ := installTemplate_result _ _ _ _ hinst
  obtain ⟨hti, ⟨members, hpj⟩, hwrite⟩ := mergeStep_result _ _ _ _ _ hmerge
  obtain ⟨devDependencies, hdev, hd1, hd2, hd3⟩ := installDependencies_result _ _ _ _ _ _ _ hdeps
  have hmkdir : w.mkdirFails = false := by
    cases h : w.mkdirFails
    · rfl
    · simp [mkdirSync_eq, h] at hmk
  cases hc : w.copied with
  | none => simp [copySync_eq, hc] at hcopy
  | some copied =>
    exact ⟨copied, templateInfo, members, devDependencies, hmkdir, hinit, hinstall, rfl, hti,
      hpj, hwrite, hdev, hd1, hd2, hd3⟩

theorem removeDependency_absent (name : String) (m : Manifest) (deps : List (String × Json))
    (h : JsObject.getProp (removeDependency name m) "dependencies" = some (Json.obj deps)) :
    JsObject.getProp deps name = none := by
  unfold removeDependency at h
  split at h
  · rw [JsObject.getProp_setProp_self] at h
    simp only [Option.some.injEq, Json.obj.injEq] at h
    rw [← h]
    exact JsObject.getProp_deleteProp_self _ _
  · rename_i hno
    exact absurd h (hno deps)

theorem scaffold_success (w : World) (templateName : String) (s : Sys)
    (copied : Dir) (templateInfo : TemplateInfo) (members : List (String × Json))
    (devDependencies : JsObject String)
    (hmkdir : w.mkdirFails = false) (hinit : w.npmInitFails = false)
    (hinstall : w.templateInstallFails = false) (hcopied : w.copied = some copied)
    (hti : w.templateJson = some templateInfo) (hpj : w.packageJson = some members)
    (hwrite : w.writeFails = false)
    (hdev : (templatePackageOf templateInfo).devDependencies = some devDependencies)
    (hdeps : w.depsInstallFails = false)
    (hdevok : (JsObject.ownEntries devDependencies).length ≠ 0 → w.devDepsInstallFails = false)
    (hremove : w.removeFails = false) :
    (scaffold w templateName s).events =
      [Event.consoleLog ("📦 Using template: " ++ templateName),
        Event.mkdirSync (appPathOf w),
        Event.consoleLog "📥 Installing template...",
        Event.execSync "yarn --version",
        Event.execSync "npm init -y",
        Event.execSync (joinSpace (cmdOf (!w.yarnMissing)) ++ " " ++ templateName),
        Event.consoleLog "📂 Copying template files...",
        Event.copySync (pathJoin [appPathOf w, "node_modules", templateName, "template"])
          (appPathOf w)] ++
      filesToRename.map (fun file =>
        Event.renameSync (pathJoin [appPathOf w, file]) (pathJoin [appPathOf w, "." ++ file])) ++
      [Event.writeFileSync (pathJoin [appPathOf w, "package.json"])
          (mergeManifest (JsObject.ofMembers members) (templatePackageOf templateInfo)),
        Event.consoleLog "📥 Installing dependencies...",
        Event.execSync (joinSpace (cmdOf (!w.yarnMissing) ++
          (toInstallDeps (templatePackageOf templateInfo)).map depToken))] ++
      (if (JsObject.ownEntries devDependencies).length ≠ 0 then
        [Event.consoleLog "📥 Installing dev dependencies...",
         Event.execSync (joinSpace (cmdDevOf (!w.yarnMissing) ++
          (JsObject.ownEntries devDependencies).map depToken))]
      else
        [Event.consoleLog "🔹 Template has no dev dependencies; skipping install...",
         Event.consoleLogInfo templateInfo]) ++
      [Event.consoleLog "🧹 Removing template dependency...",
       Event.execSync (joinSpace (cmdRemoveOf (!w.yarnMissing)) ++ " " ++ templateName),
       Event.consoleLog ("✅ Init completed." ++ " Now you might want to run:"),
       Event.consoleLog ("  $ " ++ ("cd " ++ appNameOf w ++
        (" && " ++ (if (!w.yarnMissing) = true then "yarn" else "npm") ++ " start")))] ∧
    (scaffold w templateName s).result = Except.ok () ∧
    ∃ m, (scaffold w templateName s).sys.manifest = some (removeDependency templateName m) := by
  simp only [scaffold, bind_def, pure_def, andThen, consoleLog, emit, ret, chalk, mkdirSync_eq,
    hmkdir, detectYarn_eq, installTemplate_ok w _ templateName _ hinit hinstall, copySync_eq,
    hcopied, renameDotfiles_result, renameDotfiles_events, renameDotfiles_manifest,
    mergeStep_eq w _ templateName _ templateInfo members hti hpj hwrite,
    installDependencies_eq w _ _ _ templateName templateInfo _ devDependencies hdev hdeps hdevok
      hremove]
  refine ⟨by simp, by simp, ?_⟩
  simp only [Option.map_some']
  exact ⟨_, rfl⟩

theorem run_result_ok (w : World) (hok : (run w).result = Except.ok ()) :
    w.targetExists = false ∧
    ∃ templateName, (selectTemplate w Sys.initial).result = Except.ok templateName ∧
      (scaffold w templateName Sys.initial).result = Except.ok () := by
  cases hfresh : w.targetExists with
  | true =>
    rw [run_of_target_exists w hfresh] at hok
    simp at hok
  | false =>
    refine ⟨rfl, ?_⟩
    rw [run_of_target_fresh w hfresh] at hok
    obtain ⟨templateName, hsel, hscaffold⟩ := andThen_result_ok _ _ _ _ hok
    rw [selectTemplate_sys] at hscaffold
    exact ⟨templateName, hsel, hscaffold⟩

theorem execCommands_getLast (before : List Event) (command : String) (r a b : String) :
    (execCommands (before ++
      [Event.consoleLog r, Event.execSync command, Event.consoleLog a,
        Event.consoleLog b])).getLast? = some command := by
  rw [execCommands_append]
  simp [execCommands]

/-- C7: in every run that reaches the end of the script, the events end with
the message that announces the removal, the remove command of the detected
package manager for the template identifier chosen at the prompts, and the two
closing messages; that command is the last command issued; before it come the
install of the same identifier, the write of the manifest, the install of the
runtime dependencies and, when the template declares dev-dependencies, their
install; and with the remove command taking the identifier out of
`dependencies`, the manifest on disk at the end has no such member. -/
theorem template_removed_last (w : World) (hok : (run w).result = Except.ok ()) :
    ∃ (templateName : String) (templateInfo : TemplateInfo) (before : List Event),
      (selectTemplate w Sys.initial).result = Except.ok templateName ∧
      w.templateJson = some templateInfo ∧
      (run w).events = before ++
        [Event.consoleLog "🧹 Removing template dependency...",
         Event.execSync (joinSpace (cmdRemoveOf (!w.yarnMissing)) ++ " " ++ templateName),
         Event.consoleLog ("✅ Init completed." ++ " Now you might want to run:"),
         Event.consoleLog ("  $ " ++ ("cd " ++ appNameOf w ++
          (" && " ++ (if (!w.yarnMissing) = true then "yarn" else "npm") ++ " start")))] ∧
      (execCommands (run w).events).getLast? =
        some (joinSpace (cmdRemoveOf (!w.yarnMissing)) ++ " " ++ templateName) ∧
      joinSpace (cmdRemoveOf true) = "yarn remove" ∧
      joinSpace (cmdRemoveOf false) = "npm uninstall" ∧
      Event.execSync (joinSpace (cmdOf (!w.yarnMissing)) ++ " " ++ templateName) ∈ before ∧
      (∃ path content, Event.writeFileSync path content ∈ before) ∧
      Event.execSync (joinSpace (cmdOf (!w.yarnMissing) ++
        (toInstallDeps (templatePackageOf templateInfo)).map depToken)) ∈ before ∧
      (∀ devDependencies,
        (templatePackageOf templateInfo).devDependencies = some devDependencies →
        JsObject.ownEntries devDependencies ≠ [] →
        Event.execSync (joinSpace (cmdDevOf (!w.yarnMissing) ++
          (JsObject.ownEntries devDependencies).map depToken)) ∈ before) ∧
      ∃ m, (run w).sys.manifest = some m ∧
        ∀ deps, JsObject.getProp m "dependencies" = some (Json.obj deps) →
          JsObject.getProp deps templateName = none := by
  obtain ⟨hfresh, templateName, hsel, hscaffold⟩ := run_result_ok w hok
  obtain ⟨copied, templateInfo, members, devDependencies, hmkdir, hinit, hinstall, hcopied, hti,
    hpj, hwrite, hdev, hdeps, hdevok, hremove⟩ := scaffold_facts w templateName _ hscaffold
  obtain ⟨hevents, -, m, hm⟩ := scaffold_success w templateName Sys.initial copied templateInfo
    members devDependencies hmkdir hinit hinstall hcopied hti hpj hwrite hdev hdeps hdevok hremove
  have hrun := run_of_selected w templateName hfresh hsel
  have hev : (run w).events =
      (Event.consoleLog ("🚀 Creating proyect in: " ++ appPathOf w) ::
        ((selectTemplate w Sys.initial).events ++
          ([Event.consoleLog ("📦 Using template: " ++ templateName),
            Event.mkdirSync (appPathOf w),
            Event.consoleLog "📥 Installing template...",
            Event.execSync "yarn --version",
            Event.execSync "npm init -y",
            Event.execSync (joinSpace (cmdOf (!w.yarnMissing)) ++ " " ++ templateName),
            Event.consoleLog "📂 Copying template files...",
            Event.copySync (pathJoin [appPathOf w, "node_modules", templateName, "template"])
              (appPathOf w)] ++
          filesToRename.map (fun file =>
            Event.renameSync (pathJoin [appPathOf w, file])
              (pathJoin [appPathOf w, "." ++ file])) ++
          [Event.writeFileSync (pathJoin [appPathOf w, "package.json"])
              (mergeManifest (JsObject.ofMembers members) (templatePackageOf templateInfo)),
            Event.consoleLog "📥 Installing dependencies...",
            Event.execSync (joinSpace (cmdOf (!w.yarnMissing) ++
              (toInstallDeps (templatePackageOf templateInfo)).map depToken))] ++
          (if (JsObject.ownEntries devDependencies).length ≠ 0 then
            [Event.consoleLog "📥 Installing dev dependencies...",
             Event.execSync (joinSpace (cmdDevOf (!w.yarnMissing) ++
              (JsObject.ownEntries devDependencies).map depToken))]
          else
            [Event.consoleLog "🔹 Template has no dev dependencies; skipping install...",
             Event.consoleLogInfo templateInfo])))) ++
        [Event.consoleLog "🧹 Removing template dependency...",
         Event.execSync (joinSpace (cmdRemoveOf (!w.yarnMissing)) ++ " " ++ templateName),
         Event.consoleLog ("✅ Init completed." ++ " Now you might want to run:"),
         Event.consoleLog ("  $ " ++ ("cd " ++ appNameOf w ++
          (" && " ++ (if (!w.yarnMissing) = true then "yarn" else "npm") ++ " start")))] := by
    rw [hrun]
    simp only [hevents, List.cons_append, List.append_assoc]
  refine ⟨templateName, templateInfo, _, hsel, hti, hev, ?_, by decide, by decide, ?_, ?_, ?_,
    ?_, ?_⟩
  · rw [hev]
    exact execCommands_getLast _ _ _ _ _
  · simp
  · refine ⟨pathJoin [appPathOf w, "package.json"],
      mergeManifest (JsObject.ofMembers members) (templatePackageOf templateInfo), ?_⟩
    simp
  · simp
  · intro dev hdev2 hne
    rw [hdev] at hdev2
    simp only [Option.some.injEq] at hdev2
    subst hdev2
    have hlen : (JsObject.ownEntries devDependencies).length ≠ 0 := by simpa using hne
    simp [hlen, hne]
  · refine ⟨removeDependency templateName m, ?_, fun deps hd =>
      removeDependency_absent templateName m deps hd⟩
    rw [hrun]
    exact hm

/-! ## The dependency phase -/

theorem intercalate_go_append_left (p acc sep : String) (l : List String) :
    String.intercalate.go (p ++ acc) sep l = p ++ String.intercalate.go acc sep l := by
  induction l generalizing acc with
  | nil => simp [String.intercalate.go]
  | cons a rest ih =>
    simp only [String.intercalate.go]
    rw [String.append_assoc, String.append_assoc, ← String.append_assoc acc, ih]

theorem intercalate_go_append_list (acc sep : String) (xs ys : List String) :
    String.intercalate.go acc sep (xs ++ ys) =
      String.intercalate.go (String.intercalate.go acc sep xs) sep ys := by
  induction xs generalizing acc with
  | nil => simp [String.intercalate.go]
  | cons a rest ih => simp [String.intercalate.go, ih]

theorem joinSpace_append (xs ys : List String) (hx : xs ≠ []) (hy : ys ≠ []) :
    joinSpace (xs ++ ys) = joinSpace xs ++ " " ++ joinSpace ys := by
  cases xs with
  | nil => exact absurd rfl hx
  | cons x xs =>
    cases ys with
    | nil => exact absurd rfl hy
    | cons y ys =>
      simp only [joinSpace, String.intercalate, List.cons_append]
      rw [intercalate_go_append_list]
      simp only [String.intercalate.go]
      rw [String.append_assoc, intercalate_go_append_left, String.append_assoc,
        intercalate_go_append_left]

theorem mem_toInstallDeps (templatePackage : TemplatePackage) (name version : String) :
    (name, version) ∈ toInstallDeps templatePackage ↔
      (name = "universal-scripts" ∧ version = "latest") ∨
      (name ≠ "universal-scripts" ∧
        ∃ declared, templatePackage.dependencies = some declared ∧
          JsObject.getProp declared name = some version) := by
  have hnd0 : ((JsObject.spreadInto ([] : JsObject String) templatePackage.dependencies).map
      Prod.fst).Nodup := by
    cases templatePackage.dependencies with
    | none => simp [JsObject.spreadInto]
    | some o => exact JsObject.nodup_keys_assignEntries _ _ (by simp)
  have hnd := JsObject.nodup_keys_setProp _ "universal-scripts" "latest" hnd0
  rw [toInstallDeps, (JsObject.ownEntries_perm _).mem_iff, ← JsObject.getProp_eq_some_iff _ hnd]
  by_cases hname : name = "universal-scripts"
  · subst hname
    rw [JsObject.getProp_setProp_self]
    simp [eq_comm]
  · rw [JsObject.getProp_setProp_ne _ _ _ _ (Ne.symm hname)]
    simp only [hname, false_and, false_or, ne_eq, not_false_eq_true, true_and]
    cases hd : templatePackage.dependencies with
    | none => simp [JsObject.spreadInto, JsObject.getProp]
    | some declared =>
      have hdecl : (declared.map Prod.fst).Nodup := by
        cases hraw : templatePackage.dependenciesMembers with
        | none => simp [TemplatePackage.dependencies, hraw] at hd
        | some raw =>
          simp only [TemplatePackage.dependencies, hraw, Option.map_some',
            Option.some.injEq] at hd
          rw [← hd]
          exact JsObject.nodup_keys_ofMembers raw
      rw [JsObject.getProp_spreadInto_some _ _ hdecl]
      cases hg : JsObject.getProp declared name <;> simp [JsObject.getProp, hg]

theorem nodup_keys_toInstallDeps (templatePackage : TemplatePackage) :
    ((toInstallDeps templatePackage).map Prod.fst).Nodup := by
  have hnd0 : ((JsObject.spreadInto ([] : JsObject String) templatePackage.dependencies).map
      Prod.fst).Nodup := by
    cases templatePackage.dependencies with
    | none => simp [JsObject.spreadInto]
    | some o => exact JsObject.nodup_keys_assignEntries _ _ (by simp)
  exact JsObject.nodup_keys_ownEntries _
    (JsObject.nodup_keys_setProp _ "universal-scripts" "latest" hnd0)

theorem installDependencies_commands (w : World) (cmd cmdDev cmdRemove : List String)
    (templateName : String) (templateInfo : TemplateInfo) (s : Sys)
    (devDependencies : JsObject String)
    (hdev : (templatePackageOf templateInfo).devDependencies = some devDependencies) :
    (∃ rest, (installDependencies w cmd cmdDev cmdRemove templateName templateInfo s).events =
      Event.consoleLog "📥 Installing dependencies..." ::
      Event.execSync
        (joinSpace (cmd ++ (toInstallDeps (templatePackageOf templateInfo)).map depToken)) ::
      rest) ∧
    execCommands (installDependencies w cmd cmdDev cmdRemove templateName templateInfo s).events =
      joinSpace (cmd ++ (toInstallDeps (templatePackageOf templateInfo)).map depToken) ::
      (if w.depsInstallFails = true then []
      else if JsObject.ownEntries devDependencies = [] then
        [joinSpace cmdRemove ++ " " ++ templateName]
      else
        joinSpace (cmdDev ++ (JsObject.ownEntries devDependencies).map depToken) ::
        (if w.devDepsInstallFails = true then []
        else [joinSpace cmdRemove ++ " " ++ templateName])) := by
  have hne := toInstallDeps_ne_nil (templatePackageOf templateInfo)
  cases hdeps : w.depsInstallFails with
  | true =>
    simp [installDependencies, hdev, objectEntries, bind_def, pure_def, andThen, ret,
      hne, consoleLog, emit, execSync_eq, hdeps, execCommands]
  | false =>
    by_cases hlen : JsObject.ownEntries devDependencies = []
    · cases hremove : w.removeFails <;>
        simp [installDependencies, hdev, objectEntries, bind_def, pure_def, andThen, ret,
          hne, consoleLog, emit, execSync_eq, hdeps, hremove, updateManifest, update, hlen,
          execCommands]
    · cases hd : w.devDepsInstallFails with
      | true =>
        simp [installDependencies, hdev, objectEntries, bind_def, pure_def, andThen, ret,
          hne, consoleLog, emit, execSync_eq, hdeps, hd, updateManifest, update, hlen,
          execCommands]
      | false =>
        cases hremove : w.removeFails <;>
          simp [installDependencies, hdev, objectEntries, bind_def, pure_def, andThen, ret,
            hne, consoleLog, emit, execSync_eq, hdeps, hd, hremove, updateManifest, update,
            hlen, execCommands]

/-- C6, amended: for a template whose `template.json` declares
`devDependencies`, and for either package manager, the dependency phase first
issues one command, the install form (`yarn add` or `npm install --save`)
followed, separated by blanks, by the `name@version` tokens of `toInstallDeps`;
no two tokens are for the same name; the tokens are those of the entry
`universal-scripts@latest`, there whatever version the template declares for
`universal-scripts`, and of the dependencies the template declares under
another name; so the list is never empty, and a token is for the template
identifier only when the template declares a dependency of that name or the
identifier is `universal-scripts`. -/
theorem runtime_install_command (w : World) (shouldUseYarn : Bool)
    (cmdDev cmdRemove : List String) (templateName : String) (templateInfo : TemplateInfo)
    (s : Sys) (devDependencies : JsObject String)
    (hdev : (templatePackageOf templateInfo).devDependencies = some devDependencies) :
    (∃ rest,
      (installDependencies w (cmdOf shouldUseYarn) cmdDev cmdRemove templateName templateInfo
        s).events =
        Event.consoleLog "📥 Installing dependencies..." ::
        Event.execSync (joinSpace (cmdOf shouldUseYarn ++
          (toInstallDeps (templatePackageOf templateInfo)).map depToken)) :: rest) ∧
    execCommands
      (installDependencies w (cmdOf shouldUseYarn) cmdDev cmdRemove templateName templateInfo
        s).events =
      joinSpace (cmdOf shouldUseYarn ++
        (toInstallDeps (templatePackageOf templateInfo)).map depToken) ::
      (if w.depsInstallFails = true then []
      else if JsObject.ownEntries devDependencies = [] then
        [joinSpace cmdRemove ++ " " ++ templateName]
      else
        joinSpace (cmdDev ++ (JsObject.ownEntries devDependencies).map depToken) ::
        (if w.devDepsInstallFails = true then []
        else [joinSpace cmdRemove ++ " " ++ templateName])) ∧
    joinSpace (cmdOf shouldUseYarn ++
        (toInstallDeps (templatePackageOf templateInfo)).map depToken) =
      (if shouldUseYarn = true then "yarn add" else "npm install --save") ++ " " ++
        joinSpace ((toInstallDeps (templatePackageOf templateInfo)).map depToken) ∧
    (∀ entry : String × String, depToken entry = entry.1 ++ "@" ++ entry.2) ∧
    toInstallDeps (templatePackageOf templateInfo) ≠ [] ∧
    ((toInstallDeps (templatePackageOf templateInfo)).map Prod.fst).Nodup ∧
    (∀ name version, (name, version) ∈ toInstallDeps (templatePackageOf templateInfo) ↔
      (name = "universal-scripts" ∧ version = "latest") ∨
      (name ≠ "universal-scripts" ∧
        ∃ declared, (templatePackageOf templateInfo).dependencies = some declared ∧
          JsObject.getProp declared name = some version)) ∧
    ((toInstallDeps (templatePackageOf templateInfo)).map Prod.fst).count "universal-scripts"
      = 1 ∧
    ((∃ version, (templateName, version) ∈ toInstallDeps (templatePackageOf templateInfo)) ↔
      templateName = "universal-scripts" ∨
      ∃ declared version, (templatePackageOf templateInfo).dependencies = some declared ∧
        JsObject.getProp declared templateName = some version) := by
  have hne := toInstallDeps_ne_nil (templatePackageOf templateInfo)
  have hnd := nodup_keys_toInstallDeps (templatePackageOf templateInfo)
  have hmem := mem_toInstallDeps (templatePackageOf templateInfo)
  obtain ⟨h1, h2⟩ := installDependencies_commands w (cmdOf shouldUseYarn) cmdDev cmdRemove
    templateName templateInfo s devDependencies hdev
  refine ⟨h1, h2, ?_, fun _ => rfl, hne, hnd, hmem, ?_, ?_⟩
  · rw [joinSpace_append _ _ (by cases shouldUseYarn <;> simp [cmdOf]) (by simpa using hne)]
    cases shouldUseYarn
    · have : joinSpace (cmdOf false) = "npm install --save" := by decide
      simp [this]
    · have : joinSpace (cmdOf true) = "yarn add" := by decide
      simp [this]
  · apply List.count_eq_one_of_mem hnd
    exact List.mem_map_of_mem Prod.fst ((hmem "universal-scripts" "latest").2 (Or.inl ⟨rfl, rfl⟩))
  · constructor
    · rintro ⟨version, hv⟩
      rcases (hmem templateName version).1 hv with ⟨h, _⟩ | ⟨_, declared, hd, hg⟩
      · exact Or.inl h
      · exact Or.inr ⟨declared, version, hd, hg⟩
    · rintro (h | ⟨declared, version, hd, hg⟩)
      · exact ⟨"latest", (hmem templateName "latest").2 (Or.inl ⟨h, rfl⟩)⟩
      · by_cases hname : templateName = "universal-scripts"
        · exact ⟨"latest", (hmem templateName "latest").2 (Or.inl ⟨hname, rfl⟩)⟩
        · exact ⟨version, (hmem templateName version).2 (Or.inr ⟨hname, declared, hd, hg⟩)⟩

/-! ## The claims at concrete inputs -/

theorem merged_scripts_table_witness :
    worldTypescript.templateJson = some templateInfoFull ∧
    worldTypescript.packageJson = some generatedPackageJson ∧
    ∃ (written : Manifest) (scripts : List (String × Json)),
      (mergeStep worldTypescript "/home/u/demo" "cra-template-universal-ts" Sys.initial).events =
        [Event.writeFileSync (pathJoin ["/home/u/demo", "package.json"]) written] ∧
      JsObject.getProp written "scripts" = some (Json.obj scripts) ∧
      JsObject.getProp scripts "start" = some (Json.str "custom start") ∧
      JsObject.getProp scripts "storybook" = some (Json.str "storybook dev") ∧
      JsObject.getProp scripts "build" = some (Json.str "universal-scripts build") ∧
      JsObject.getProp scripts "prepare" = none := by
  obtain ⟨written, scripts, h1, h2, _, h4, _⟩ :=
    merged_scripts_table worldTypescript "/home/u/demo" "cra-template-universal-ts" Sys.initial
      templateInfoFull generatedPackageJson rfl rfl
  exact ⟨rfl, rfl, written, scripts, h1, h2,
    (h4 "start").trans (congrArg (Option.map Json.str)
      (show _ = some "custom start" by decide!)),
    (h4 "storybook").trans (congrArg (Option.map Json.str)
      (show _ = some "storybook dev" by decide!)),
    (h4 "build").trans (congrArg (Option.map Json.str)
      (show _ = some "universal-scripts build" by decide!)),
    (h4 "prepare").trans (congrArg (Option.map Json.str) (show _ = none by decide!))⟩

theorem merged_engines_private_main_witness :
    worldTypescript.templateJson = some templateInfoFull ∧
    worldTypescript.packageJson = some generatedPackageJson ∧
    JsObject.getProp (JsObject.ofMembers generatedPackageJson) "main" =
      some (Json.str "index.js") ∧
    ∃ written : Manifest,
      (mergeStep worldTypescript "/home/u/demo" "cra-template-universal-ts" Sys.initial).events =
        [Event.writeFileSync (pathJoin ["/home/u/demo", "package.json"]) written] ∧
      JsObject.getProp written "engines" = some (Json.obj [("node", Json.str ">=18")]) ∧
      JsObject.getProp written "private" = some (Json.bool true) ∧
      JsObject.getProp written "main" = none :=
  ⟨rfl, rfl, rfl,
    merged_engines_private_main worldTypescript "/home/u/demo" "cra-template-universal-ts"
      Sys.initial templateInfoFull generatedPackageJson rfl rfl⟩

theorem existing_target_aborts_witness :
    worldExisting.targetExists = true ∧
    exitCode (run worldExisting).result = some 1 ∧
    (run worldExisting).events =
      [Event.consoleLog ("🚀 Creating proyect in: " ++ appPathOf worldExisting),
       Event.consoleError "⚠️ This directory already exists. Use another name."] :=
  ⟨rfl, ((existing_target_aborts worldExisting).1 rfl).2.1,
    ((existing_target_aborts worldExisting).1 rfl).2.2.1⟩

theorem template_install_failure_witness :
    worldInstallFails.templateInstallFails = true ∧
    exitCode (run worldInstallFails).result = some 1 ∧
    execCommands (run worldInstallFails).events =
      ["yarn --version", "npm init -y", "yarn add cra-template-universal-ts"] ∧
    (execCommands (run worldInstallFails).events).count
      (joinSpace (cmdOf (!worldInstallFails.yarnMissing)) ++ " " ++
        "cra-template-universal-ts") = 1 :=
  ⟨rfl,
    (template_install_failure worldInstallFails "cra-template-universal-ts" rfl (by decide!)
      rfl rfl rfl).2.1,
    (template_install_failure worldInstallFails "cra-template-universal-ts" rfl (by decide!)
      rfl rfl rfl).2.2.1.trans (by decide!),
    (template_install_failure worldInstallFails "cra-template-universal-ts" rfl (by decide!)
      rfl rfl rfl).2.2.2.1⟩

/-- C5, at a template whose `package` declares no `devDependencies`:
`Object.entries(undefined)` throws at line 151, so the run ends with an
uncaught exception after the manifest is written; no dependency is installed
and the template package is not removed. -/
theorem absent_devDependencies_throws :
    (templatePackageOf ⟨some ⟨none, some [("react", "^18.2.0")], none⟩⟩).devDependencies =
      none ∧
    (run worldNoDevDependencies).result =
      Except.error (Halt.thrown "TypeError: Cannot convert undefined or null to object") ∧
    exitCode (run worldNoDevDependencies).result = some 1 ∧
    execCommands (run worldNoDevDependencies).events =
      ["yarn --version", "npm init -y", "yarn add cra-template-universal-ts"] ∧
    consoleMessages (run worldNoDevDependencies).events =
      ["🚀 Creating proyect in: /home/u/demo", "📦 Using template: cra-template-universal-ts",
       "📥 Installing template...", "📂 Copying template files..."] := by
  decide!

/-- C6, as stated, fails: with the Default JS template and a `template.json`
that lists `cra-template-universal` among its dependencies, the runtime install
command has a token for the template identifier. -/
theorem template_token_counterexample :
    (selectTemplate worldSelfDeclared Sys.initial).result =
      Except.ok "cra-template-universal" ∧
    worldSelfDeclared.templateJson =
      some ⟨some ⟨none, some [("cra-template-universal", "1.0.0")], some []⟩⟩ ∧
    (toInstallDeps ⟨none, some [("cra-template-universal", "1.0.0")], some []⟩).map depToken =
      ["cra-template-universal" ++ "@" ++ "1.0.0", "universal-scripts@latest"] ∧
    execCommands (run worldSelfDeclared).events =
      ["yarn --version", "npm init -y", "yarn add cra-template-universal",
       "yarn add cra-template-universal@1.0.0 universal-scripts@latest",
       "yarn remove cra-template-universal"] := by
  decide!

theorem runtime_install_command_witness :
    (templatePackageOf templateInfoFull).devDependencies = some [("jest", "^29.0.0")] ∧
    joinSpace (cmdOf true ++ (toInstallDeps (templatePackageOf templateInfoFull)).map depToken) =
      "yarn add react@^18.2.0 universal-scripts@latest" ∧
    toInstallDeps (templatePackageOf templateInfoFull) ≠ [] ∧
    ((toInstallDeps (templatePackageOf templateInfoFull)).map Prod.fst).count
      "universal-scripts" = 1 :=
  ⟨by decide!, by decide!,
    (runtime_install_command worldTypescript true (cmdDevOf true) (cmdRemoveOf true)
      "cra-template-universal-ts" templateInfoFull Sys.initial [("jest", "^29.0.0")]
      (by decide!)).2.2.2.2.1,
    (runtime_install_command worldTypescript true (cmdDevOf true) (cmdRemoveOf true)
      "cra-template-universal-ts" templateInfoFull Sys.initial [("jest", "^29.0.0")]
      (by decide!)).2.2.2.2.2.2.2.1⟩

theorem template_removed_last_witness :
    (run worldTypescript).result = Except.ok () ∧
    execCommands (run worldTypescript).events =
      ["yarn --version", "npm init -y", "yarn add cra-template-universal-ts",
       "yarn add react@^18.2.0 universal-scripts@latest", "yarn add -D jest@^29.0.0",
       "yarn remove cra-template-universal-ts"] ∧
    ∃ templateName,
      (selectTemplate worldTypescript Sys.initial).result = Except.ok templateName ∧
      (execCommands (run worldTypescript).events).getLast? =
        some (joinSpace (cmdRemoveOf (!worldTypescript.yarnMissing)) ++ " " ++ templateName) ∧
      ∃ m, (run worldTypescript).sys.manifest = some m ∧
        ∀ deps, JsObject.getProp m "dependencies" = some (Json.obj deps) →
          JsObject.getProp deps templateName = none := by
  obtain ⟨templateName, _, _, hsel, _, _, hlast, _, _, _, _, _, _, hm⟩ :=
    template_removed_last worldTypescript (by decide!)
  exact ⟨by decide!, by decide!, templateName, hsel, hlast, hm⟩

theorem dotfiles_renamed_witness :
    (∀ e ∈ rootWithDotfiles, simpleName e.1 = true) ∧
    FileSystem.lookup rootWithDotfiles "eslintrc" = some (Node.dir [("base.json", some "{}")]) ∧
    (renameDotfiles worldTypescript "/home/u/demo" "cra-template-universal-ts"
      ⟨FileSystem.placeAt "/home/u/demo" rootWithDotfiles, none⟩).sys.fs.lookup
        (pathJoin ["/home/u/demo", "." ++ "eslintrc"]) =
      some (Node.dir [("base.json", some "{}")]) ∧
    (renameDotfiles worldTypescript "/home/u/demo" "cra-template-universal-ts"
      ⟨FileSystem.placeAt "/home/u/demo" rootWithDotfiles, none⟩).sys.fs.lookup
        (pathJoin ["/home/u/demo", "eslintrc"]) = none ∧
    (renameDotfiles worldTypescript "/home/u/demo" "cra-template-universal-ts"
      ⟨FileSystem.placeAt "/home/u/demo" rootWithDotfiles, none⟩).sys.fs =
      [("/home/u/demo/.prettierignore", Node.file "build"),
       ("/home/u/demo/.prettierrc", Node.file "{}"),
       ("/home/u/demo/.eslintrc", Node.dir [("base.json", some "{}")]),
       ("/home/u/demo/.gitignore", Node.file "node_modules"),
       ("/home/u/demo/src", Node.dir [("index.ts", some "export {}")])] :=
  ⟨by decide!, by decide!,
    ((dotfiles_renamed worldTypescript "/home/u/demo" "cra-template-universal-ts"
      rootWithDotfiles none (by decide!)).2.2.1
      "eslintrc" (by decide!) (Node.dir [("base.json", some "{}")]) (by decide!)
      (by decide!)).1,
    ((dotfiles_renamed worldTypescript "/home/u/demo" "cra-template-universal-ts"
      rootWithDotfiles none (by decide!)).2.2.1
      "eslintrc" (by decide!) (Node.dir [("base.json", some "{}")]) (by decide!)
      (by decide!)).2,
    by decide!⟩

/-- C8, as stated, fails: with `gitignore` a file and `.gitignore` a directory
in the target directory, `renameSync` throws, the handler swallows the error,
and after the phase `gitignore` is still there and `.gitignore` is the
directory it was. -/
theorem present_name_not_renamed :
    (∀ e ∈ rootWithDotDirectory, simpleName e.1 = true) ∧
    "gitignore" ∈ filesToRename ∧
    FileSystem.lookup rootWithDotDirectory "gitignore" = some (Node.file "node_modules") ∧
    FileSystem.rename (FileSystem.placeAt "/home/u/demo" rootWithDotDirectory)
      "/home/u/demo/gitignore" "/home/u/demo/.gitignore" =
      Except.error "EISDIR: illegal operation on a directory" ∧
    (renameDotfiles worldTypescript "/home/u/demo" "cra-template-universal-ts"
      ⟨FileSystem.placeAt "/home/u/demo" rootWithDotDirectory, none⟩).result = Except.ok () ∧
    (renameDotfiles worldTypescript "/home/u/demo" "cra-template-universal-ts"
      ⟨FileSystem.placeAt "/home/u/demo" rootWithDotDirectory, none⟩).sys.fs.lookup
        "/home/u/demo/gitignore" = some (Node.file "node_modules") ∧
    (renameDotfiles worldTypescript "/home/u/demo" "cra-template-universal-ts"
      ⟨FileSystem.placeAt "/home/u/demo" rootWithDotDirectory, none⟩).sys.fs.lookup
        "/home/u/demo/.gitignore" = some (Node.dir [("local", some "dist")]) := by
  decide!

/-- C9, at a template that ships none of the four dotfile templates: the four
renames are attempted and all fail, the run goes on to the end with exit code
0, and the console shows no message about any of the failures. -/
theorem failed_rename_prints_nothing :
    renameCalls (run worldNoDotfiles).events =
      [("/home/u/demo/gitignore", "/home/u/demo/.gitignore"),
       ("/home/u/demo/eslintrc", "/home/u/demo/.eslintrc"),
       ("/home/u/demo/prettierrc", "/home/u/demo/.prettierrc"),
       ("/home/u/demo/prettierignore", "/home/u/demo/.prettierignore")] ∧
    (run worldNoDotfiles).sys.fs =
      [("/home/u/demo/src", Node.dir [("index.ts", some "export {}")])] ∧
    consoleMessages
      (renameOne worldNoDotfiles "/home/u/demo" "cra-template-universal-ts" "gitignore"
        ⟨[("/home/u/demo/src", Node.dir [("index.ts", some "export {}")])], none⟩).events = [] ∧
    consoleMessages (run worldNoDotfiles).events =
      ["🚀 Creating proyect in: /home/u/demo", "📦 Using template: cra-template-universal-ts",
       "📥 Installing template...", "📂 Copying template files...",
       "📥 Installing dependencies...", "📥 Installing dev dependencies...",
       "🧹 Removing template dependency...", "✅ Init completed. Now you might want to run:",
       "  $ cd demo && yarn start"] ∧
    exitCode (run worldNoDotfiles).result = some 0 := by
  decide!

theorem template_identifier_witness :
    worldCustom.choice = 2 ∧
    (selectTemplate worldCustom Sys.initial).result = Except.ok "my-template" ∧
    validate "  \t" = Validation.message "❗Template name cannot be empty" :=
  ⟨rfl,
    ((template_identifier worldCustom Sys.initial).2.2.2 rfl).2.1 ["", "  \t"] "my-template"
      ["other"] rfl (by decide!) (by decide!) |>.1,
    ((template_identifier worldCustom Sys.initial).1 "  \t").2.2 (by decide!)⟩

end InitJs
